import Mathlib

/-!
Verification of the zlg_take_home shipment-tracking service (src/app.py).

Shallow embedding conventions:
* Python floats (temperatures, humidities) and datetimes are modelled as
  rationals (ℚ); the code only ever compares them with `<`, `>` and `=`,
  so any linearly ordered dense field is faithful.
* ISO-8601 timestamp strings from upstream responses are modelled by the
  datetime they parse to (an `Option ℚ`, `none` when the field is absent);
  dedup and ordering in the code act on the parsed datetimes.
* The SQLAlchemy session is modelled as a `DBState` holding the row lists
  of the five tables; `db.session.add` appends, queries read the current
  list (SQLAlchemy autoflushes pending adds before a query, so rows added
  earlier in the same request are visible to later dedup queries).
* A route handler is a pure function from a `DBState`, the parsed request
  payload, the upstream responses it consumes and the current clock value
  (`datetime.utcnow()`) to an HTTP status code and the resulting `DBState`.
  An uncaught Python exception surfaces as Flask's generic 500 response
  with the session's uncommitted changes discarded.
-/

namespace ZlgApp

/-! ## Data model: the five tables of src/app.py lines 30-81 (row `id`
primary keys other than `Shipment.id` are never read and are omitted). -/

/-- Shipment row (src/app.py lines 30-46); `created_at` and `updated_at`
are never read by any code path a claim mentions and are omitted. -/
structure Shipment where
  id : Nat
  tracking_number : String
  origin : Option String
  destination : Option String
  current_status : Option String
deriving DecidableEq

/-- StatusHistory row (src/app.py lines 49-55). -/
structure StatusHistory where
  shipment_id : Nat
  status : String
  location : Option String
  timestamp : ℚ
deriving DecidableEq

/-- SensorData row (src/app.py lines 58-65). -/
structure SensorData where
  shipment_id : Nat
  timestamp : ℚ
  temperature : ℚ
  humidity : Option ℚ
  location : Option String
deriving DecidableEq

/-- TemperatureAlert row (src/app.py lines 68-74); `alert_type` is a
plain string column. -/
structure TemperatureAlert where
  shipment_id : Nat
  timestamp : ℚ
  temperature : ℚ
  alert_type : String
deriving DecidableEq

/-- Config row (src/app.py lines 77-81): a key-value pair of strings. -/
structure ConfigRow where
  key : String
  value : String
deriving DecidableEq

/-- The database state: one row list per table plus the autoincrement
counter that supplies `Shipment.id`. -/
structure DBState where
  shipments : List Shipment
  status_history : List StatusHistory
  sensor_data : List SensorData
  temperature_alerts : List TemperatureAlert
  config : List ConfigRow
  next_id : Nat
deriving DecidableEq

/-- The empty database produced by `db.create_all()` on a fresh file. -/
def DBState.empty : DBState :=
  { shipments := [], status_history := [], sensor_data := [],
    temperature_alerts := [], config := [], next_id := 0 }

/-! ## Python runtime glue -/

/-- Python exception surfacing from the modelled fragments: `float()` on a
non-numeric string raises ValueError. -/
inductive PyError where
  | valueError
deriving DecidableEq

/-- Value of a decimal digit character. -/
def digitVal (c : Char) : Nat := c.toNat - 48

/-- Natural number denoted by a list of decimal digit characters. -/
def digitsToNat (cs : List Char) : Nat :=
  cs.foldl (fun n c => 10 * n + digitVal c) 0

/-- Modelled from the Python builtin `float(s)` (not part of src/): parses
an optional sign, an integer part and an optional fractional part,
returning `none` where Python raises ValueError.  Exponent notation,
`inf`/`nan` and surrounding whitespace are omitted: no claim depends on
them, only on the existence of strings that do and strings that do not
parse. -/
def parseFloat (s : String) : Option ℚ :=
  let cs := s.toList
  let signed : Int × List Char :=
    match cs with
    | '-' :: rest => (-1, rest)
    | '+' :: rest => (1, rest)
    | _ => (1, cs)
  let sign := signed.1
  let body := signed.2
  let intPart := body.takeWhile Char.isDigit
  let rest := body.dropWhile Char.isDigit
  match rest with
  | [] =>
      if intPart.isEmpty then none
      else some (mkRat (sign * (digitsToNat intPart : Int)) 1)
  | '.' :: frac =>
      if frac.all Char.isDigit && !(intPart.isEmpty && frac.isEmpty) then
        some (mkRat
          (sign * ((digitsToNat intPart * 10 ^ frac.length +
            digitsToNat frac : Nat) : Int))
          (10 ^ frac.length))
      else none
  | _ => none

/-- A JSON value carried in a request body, as Python deserialises it
(numbers as ℚ, see the module docstring). -/
inductive Json where
  | null : Json
  | bool (b : Bool) : Json
  | num (q : ℚ) : Json
  | str (s : String) : Json
  | arr (xs : List Json) : Json
  | obj (kvs : List (String × Json)) : Json

/-- Modelled from the Python builtin `str(v)` on a deserialised JSON value
(not part of src/): a Python string converts to itself, other values to
some textual rendering whose exact characters no claim depends on. -/
def pyStr : Json → String
  | Json.null => "None"
  | Json.bool true => "True"
  | Json.bool false => "False"
  | Json.num q => toString q.num ++ (if q.den = 1 then "" else "." ++ toString q.den)
  | Json.str s => s
  | Json.arr _ => "[...]"
  | Json.obj _ => "{...}"

/-- Outcome of one synchronous `requests` call to an external provider
(src/app.py lines 124-144): a decoded JSON body on 2xx, a
`requests.HTTPError` raised by `raise_for_status()` on a non-2xx
response, or a network-level `requests.ConnectionError` (which is a
`RequestException` but NOT an `HTTPError`). -/
inductive FetchResult (α : Type) where
  | ok (v : α) : FetchResult α
  | httpError : FetchResult α
  | networkError : FetchResult α

/-! ## Helper functions (src/app.py lines 87-118) -/

/-- Translation of `get_temp_range` (src/app.py lines 87-93): reads the two
config keys and converts each present value with `float()`, which raises
on a non-numeric string; the min value is converted first. -/
def get_temp_range (s : DBState) : Except PyError (Option ℚ × Option ℚ) :=
  let minRow := s.config.find? (fun r => r.key == "min_temperature")
  let maxRow := s.config.find? (fun r => r.key == "max_temperature")
  match minRow with
  | none =>
      match maxRow with
      | none => Except.ok (none, none)
      | some r =>
          match parseFloat r.value with
          | none => Except.error PyError.valueError
          | some q => Except.ok (none, some q)
  | some rmin =>
      match parseFloat rmin.value with
      | none => Except.error PyError.valueError
      | some qmin =>
          match maxRow with
          | none => Except.ok (some qmin, none)
          | some rmax =>
              match parseFloat rmax.value with
              | none => Except.error PyError.valueError
              | some qmax => Except.ok (some qmin, some qmax)

/-- Guard `min_temp is not None and temperature < min_temp` of
src/app.py line 100 (and line 289 in `ingest_data`). -/
def belowCheck (min_temp : Option ℚ) (temperature : ℚ) : Bool :=
  match min_temp with
  | some m => decide (temperature < m)
  | none => false

/-- Guard `max_temp is not None and temperature > max_temp` of
src/app.py line 104 (and line 306 in `ingest_data`). -/
def aboveCheck (max_temp : Option ℚ) (temperature : ℚ) : Bool :=
  match max_temp with
  | some m => decide (temperature > m)
  | none => false

/-- Alert classification of the if/elif chain at src/app.py lines
100-107 inside `create_temp_alert_if_needed` (the manual-sensor-POST
alert-creation site, bounds always Config-sourced). -/
def alertDecisionManual (min_temp max_temp : Option ℚ) (temperature : ℚ) :
    Option String :=
  if belowCheck min_temp temperature then some ("below_min")
  else if aboveCheck max_temp temperature then some ("above_max")
  else none

/-- Alert classification of the if/elif chain at src/app.py lines
289-306 inside `ingest_data` (the ingestion alert-creation site, bounds
are the effective request-override-or-Config bounds). -/
def alertDecisionIngest (temp_min temp_max : Option ℚ) (temperature : ℚ) :
    Option String :=
  if belowCheck temp_min temperature then some ("below_min")
  else if aboveCheck temp_max temperature then some ("above_max")
  else none

/-- Translation of `create_temp_alert_if_needed` (src/app.py lines
96-118): reads the Config bounds (propagating the `float()` ValueError),
classifies the temperature, and on an alert adds BOTH a TemperatureAlert
row and a StatusHistory row "Temperature excursion: {alert_type}" (lines
109-118), committing both.  `now` is `datetime.utcnow()`, the default
timestamp of the alert row and the explicit timestamp of the status
row. -/
def create_temp_alert_if_needed (s : DBState) (shipment_id : Nat)
    (temperature : ℚ) (now : ℚ) : Except PyError DBState :=
  match get_temp_range s with
  | Except.error e => Except.error e
  | Except.ok (min_temp, max_temp) =>
      match alertDecisionManual min_temp max_temp temperature with
      | some a =>
          Except.ok
            { s with
              temperature_alerts := s.temperature_alerts ++
                [{ shipment_id := shipment_id, timestamp := now,
                   temperature := temperature, alert_type := a }],
              status_history := s.status_history ++
                [{ shipment_id := shipment_id,
                   status := "Temperature excursion: " ++ a,
                   location := none, timestamp := now }] }
      | none => Except.ok s

/-! ## Upstream response shapes consumed by `ingest_data` -/

/-- One element of `track_info["scanEvents"]` as the code reads it
(src/app.py lines 227-235): `status` (absent ⇒ the literal "Unknown"),
`scanLocation.city`, and `dateScan` as the datetime it parses to
(`none` when absent; the code then defaults to `datetime.utcnow()`). -/
structure ScanEvent where
  status : Option String
  scanLocationCity : Option String
  dateScan : Option ℚ
deriving DecidableEq

/-- The first element of `output.completeTrackResults` as the code reads
it (src/app.py lines 200-226). -/
structure TrackInfo where
  originCity : Option String
  destinationCity : Option String
  statusByLocale : Option String
  scanEvents : List ScanEvent
deriving DecidableEq

/-- One element of the OnAsset `reports` list as the code reads it
(src/app.py lines 260-264), timestamps again as parsed datetimes. -/
structure Report where
  timestamp : Option ℚ
  location : Option String
  temperature : Option ℚ
  humidity : Option ℚ
deriving DecidableEq

/-- Parsed body of a POST /ingest request (src/app.py lines 172-188):
`none` for an absent key; `temp_min`/`temp_max` via `data.get`, so an
absent key and an explicit null coincide. -/
structure IngestPayload where
  fedex_bearer_token : Option String
  onasset_token : Option String
  tracking_number : Option String
  sensor_id : Option String
  temp_min : Option ℚ
  temp_max : Option ℚ
deriving DecidableEq

/-! ## The ingestion pipeline (src/app.py lines 169-331), staged -/

/-- Effective-bounds resolution of src/app.py lines 187-192: a
request-supplied bound wins per side, otherwise Config is consulted.
This runs BEFORE the `try:` of line 194, so a `float()` ValueError from
`get_temp_range` escapes the handler (Flask's generic 500). -/
def resolveBounds (s : DBState) (p : IngestPayload) :
    Except PyError (Option ℚ × Option ℚ) :=
  if p.temp_min.isNone || p.temp_max.isNone then
    match get_temp_range s with
    | Except.error e => Except.error e
    | Except.ok (config_min, config_max) =>
        Except.ok (p.temp_min.orElse (fun _ => config_min),
                   p.temp_max.orElse (fun _ => config_max))
  else Except.ok (p.temp_min, p.temp_max)

/-- Update of the shipment object returned by
`Shipment.query.filter_by(tracking_number=tn).first()` — only the first
matching row is mutated (src/app.py lines 220-222 and line 428). -/
def updateFirstShipment (l : List Shipment) (tn : String)
    (f : Shipment → Shipment) : List Shipment :=
  match l with
  | [] => []
  | x :: xs =>
      if x.tracking_number == tn then f x :: xs
      else x :: updateFirstShipment xs tn f

/-- Shipment upsert of src/app.py lines 209-223: create the shipment if
the tracking number is unseen (its `id` drawn from the autoincrement
counter), otherwise overwrite origin/destination/current_status in
place.  Returns the shipment id the rest of the request uses. -/
def upsertShipment (s : DBState) (tn : String)
    (origin destination current_status : Option String) : Nat × DBState :=
  match s.shipments.find? (fun sh => sh.tracking_number == tn) with
  | none =>
      (s.next_id,
       { s with
         shipments := s.shipments ++
           [{ id := s.next_id, tracking_number := tn, origin := origin,
              destination := destination, current_status := current_status }],
         next_id := s.next_id + 1 })
  | some sh =>
      (sh.id,
       { s with
         shipments := updateFirstShipment s.shipments tn
           (fun x => { x with origin := origin, destination := destination,
                              current_status := current_status }) })

/-- The StatusHistory row a scan event inserts (src/app.py lines
228-250): absent `status` defaults to "Unknown", absent `dateScan`
defaults to `datetime.utcnow()` (the `now` of the handling request). -/
def scanRow (sid : Nat) (now : ℚ) (e : ScanEvent) : StatusHistory :=
  { shipment_id := sid, status := e.status.getD ("Unknown"),
    location := e.scanLocationCity, timestamp := e.dateScan.getD now }

/-- Body of the scan-event loop (src/app.py lines 227-251): insert the
row unless an identical (shipment, status, location, timestamp) row
already exists. -/
def processScanEvent (sid : Nat) (now : ℚ) (st : DBState) (e : ScanEvent) :
    DBState :=
  let row := scanRow sid now e
  if row ∈ st.status_history then st
  else { st with status_history := st.status_history ++ [row] }

/-- The scan-event loop of src/app.py lines 227-252. -/
def processScanEvents (sid : Nat) (now : ℚ) (st : DBState)
    (es : List ScanEvent) : DBState :=
  es.foldl (processScanEvent sid now) st

/-- The SensorData row a report inserts when its timestamp and
temperature are present (src/app.py lines 279-285). -/
def reportRow (sid : Nat) (rec : Report) : SensorData :=
  { shipment_id := sid, timestamp := rec.timestamp.getD 0,
    temperature := rec.temperature.getD 0, humidity := rec.humidity,
    location := rec.location }

/-- Status string of src/app.py line 301. -/
def excursionBelowStatus (temperature : ℚ) : String :=
  "Temperature excursion below minimum: " ++ toString temperature ++ "°C"

/-- Status string of src/app.py line 318. -/
def excursionAboveStatus (temperature : ℚ) : String :=
  "Temperature excursion above maximum: " ++ toString temperature ++ "°C"

/-- Body of the report loop (src/app.py lines 260-322): skip when
timestamp or temperature is missing; dedup by full field match; on a
fresh insert run the if/elif threshold chain of lines 289-322
(`alertDecisionIngest`), adding a TemperatureAlert row and an excursion
StatusHistory row on a breach, both stamped with the report's own
timestamp and location. -/
def processReport (sid : Nat) (temp_min temp_max : Option ℚ) (st : DBState)
    (rec : Report) : DBState :=
  match rec.timestamp, rec.temperature with
  | some ts, some temperature =>
      let row := reportRow sid rec
      if row ∈ st.sensor_data then st
      else
        let st1 := { st with sensor_data := st.sensor_data ++ [row] }
        match alertDecisionIngest temp_min temp_max temperature with
        | some a =>
            { st1 with
              temperature_alerts := st1.temperature_alerts ++
                [{ shipment_id := sid, timestamp := ts,
                   temperature := temperature, alert_type := a }],
              status_history := st1.status_history ++
                [{ shipment_id := sid,
                   status := if a == "below_min" then
                       excursionBelowStatus temperature
                     else excursionAboveStatus temperature,
                   location := rec.location, timestamp := ts }] }
        | none => st1
  | _, _ => st

/-- The report loop of src/app.py lines 260-323. -/
def processReports (sid : Nat) (temp_min temp_max : Option ℚ) (st : DBState)
    (recs : List Report) : DBState :=
  recs.foldl (processReport sid temp_min temp_max) st

/-- Translation of the POST /ingest handler `ingest_data` (src/app.py
lines 169-331).  `fedexResp`/`onassetResp` are the outcomes of the two
external calls; `now` is `datetime.utcnow()`.  Only `requests.HTTPError`
is caught by the 502 branch (line 327); a network-level
`ConnectionError` is not an `HTTPError` and falls to the generic
`except Exception` 500 branch (line 329).  Commits happen after the
upsert, after the scan loop and after the report loop, so state
reached before a later failure persists. -/
def ingest_data (s : DBState) (p : IngestPayload)
    (fedexResp : FetchResult (List TrackInfo))
    (onassetResp : FetchResult (List Report)) (now : ℚ) : Nat × DBState :=
  if p.fedex_bearer_token.isNone || p.onasset_token.isNone ||
     p.tracking_number.isNone || p.sensor_id.isNone then
    (400, s)
  else
    match resolveBounds s p with
    | Except.error _ => (500, s)
    | Except.ok (temp_min, temp_max) =>
        match fedexResp with
        | FetchResult.httpError => (502, s)
        | FetchResult.networkError => (500, s)
        | FetchResult.ok results =>
            match results with
            | [] => (404, s)
            | track_info :: _ =>
                let tn := p.tracking_number.getD ("")
                let up := upsertShipment s tn track_info.originCity
                  track_info.destinationCity track_info.statusByLocale
                let s2 := processScanEvents up.1 now up.2 track_info.scanEvents
                match onassetResp with
                | FetchResult.httpError => (502, s2)
                | FetchResult.networkError => (500, s2)
                | FetchResult.ok reports =>
                    (200, processReports up.1 temp_min temp_max s2 reports)

/-! ## The direct CRUD routes (src/app.py lines 337-534) -/

/-- Parsed body of POST /shipments and of each item fetched by
`fetch_shipment_data_from_api` (`none` for an absent key; a missing
`tracking_number` in a fetched item raises KeyError at line 547). -/
structure ShipmentPayload where
  tracking_number : Option String
  origin : Option String
  destination : Option String
  current_status : Option String
deriving DecidableEq

/-- Parsed body of POST /shipments/{tn}/status (src/app.py lines
412-420), the timestamp as the datetime it parses to. -/
structure StatusPayload where
  status : Option String
  location : Option String
  timestamp : Option ℚ
deriving DecidableEq

/-- Parsed body of POST /shipments/{tn}/sensor (src/app.py lines
457-471). -/
structure SensorPayload where
  temperature : Option ℚ
  humidity : Option ℚ
  location : Option String
  timestamp : Option ℚ
deriving DecidableEq

/-- Parsed body of PUT /config/temperature-range: the two values are
arbitrary JSON (src/app.py lines 515-531). -/
structure ConfigPayload where
  min_temperature : Option Json
  max_temperature : Option Json

/-- Translation of `create_shipment` (src/app.py lines 352-370). -/
def create_shipment (s : DBState) (p : Option ShipmentPayload) :
    Nat × DBState :=
  match p with
  | none => (400, s)
  | some d =>
      match d.tracking_number with
      | none => (400, s)
      | some tn =>
          if (s.shipments.find? (fun sh => sh.tracking_number == tn)).isSome
          then (400, s)
          else
            (201,
             { s with
               shipments := s.shipments ++
                 [{ id := s.next_id, tracking_number := tn,
                    origin := d.origin, destination := d.destination,
                    current_status := d.current_status }],
               next_id := s.next_id + 1 })

/-- Translation of `get_shipment` (src/app.py lines 373-386): read-only,
404 on an unknown tracking number. -/
def get_shipment (s : DBState) (tn : String) : Nat × DBState :=
  if (s.shipments.find? (fun sh => sh.tracking_number == tn)).isSome
  then (200, s) else (404, s)

/-- Translation of `get_status_history` (src/app.py lines 389-406):
read-only. -/
def get_status_history (s : DBState) (tn : String) : Nat × DBState :=
  if (s.shipments.find? (fun sh => sh.tracking_number == tn)).isSome
  then (200, s) else (404, s)

/-- Translation of `add_status` (src/app.py lines 409-430): no dedup
check of any kind — the row is always inserted — and the shipment's
`current_status` is overwritten. -/
def add_status (s : DBState) (tn : String) (p : Option StatusPayload)
    (now : ℚ) : Nat × DBState :=
  match s.shipments.find? (fun sh => sh.tracking_number == tn) with
  | none => (404, s)
  | some sh =>
      match p with
      | none => (400, s)
      | some d =>
          match d.status with
          | none => (400, s)
          | some status =>
              (201,
               { s with
                 status_history := s.status_history ++
                   [{ shipment_id := sh.id, status := status,
                      location := d.location,
                      timestamp := d.timestamp.getD now }],
                 shipments := updateFirstShipment s.shipments tn
                   (fun x => { x with current_status := some status }) })

/-- Translation of `get_sensor_data` (src/app.py lines 433-451):
read-only. -/
def get_sensor_data (s : DBState) (tn : String) : Nat × DBState :=
  if (s.shipments.find? (fun sh => sh.tracking_number == tn)).isSome
  then (200, s) else (404, s)

/-- Translation of `add_sensor_data` (src/app.py lines 454-478): insert
the sensor row unconditionally and commit, then call
`create_temp_alert_if_needed` with Config-sourced bounds.  A ValueError
escaping that helper surfaces as Flask's generic 500 AFTER the sensor
row was committed. -/
def add_sensor_data (s : DBState) (tn : String) (p : Option SensorPayload)
    (now : ℚ) : Nat × DBState :=
  match s.shipments.find? (fun sh => sh.tracking_number == tn) with
  | none => (404, s)
  | some sh =>
      match p with
      | none => (400, s)
      | some d =>
          match d.temperature with
          | none => (400, s)
          | some temperature =>
              let s1 :=
                { s with
                  sensor_data := s.sensor_data ++
                    [{ shipment_id := sh.id,
                       timestamp := d.timestamp.getD now,
                       temperature := temperature, humidity := d.humidity,
                       location := d.location }] }
              match create_temp_alert_if_needed s1 sh.id temperature now with
              | Except.ok s2 => (201, s2)
              | Except.error _ => (500, s1)

/-- Translation of `get_temperature_alerts` (src/app.py lines 481-498):
read-only. -/
def get_temperature_alerts (s : DBState) (tn : String) : Nat × DBState :=
  if (s.shipments.find? (fun sh => sh.tracking_number == tn)).isSome
  then (200, s) else (404, s)

/-- Translation of `get_temperature_range` (src/app.py lines 501-510):
the handler body repeats the queries and `float()` conversions of the
helper `get_temp_range` verbatim, so it is modelled through it; the
route has no exception handler, so a ValueError surfaces as Flask's
generic 500 (and no JSON body). -/
def get_temperature_range (s : DBState) :
    Nat × Option (Option ℚ × Option ℚ) :=
  match get_temp_range s with
  | Except.ok v => (200, some v)
  | Except.error _ => (500, none)

/-- Update of the config row returned by `filter_by(key=...).first()` —
only the first matching row is mutated (src/app.py lines 524, 531). -/
def updateFirstConfig (l : List ConfigRow) (k v : String) : List ConfigRow :=
  match l with
  | [] => []
  | x :: xs =>
      if x.key == k then { x with value := v } :: xs
      else x :: updateFirstConfig xs k v

/-- Upsert of one config key (src/app.py lines 519-531). -/
def configUpsert (l : List ConfigRow) (k v : String) : List ConfigRow :=
  match l.find? (fun r => r.key == k) with
  | none => l ++ [{ key := k, value := v }]
  | some _ => updateFirstConfig l k v

/-- Translation of `set_temperature_range` (src/app.py lines 513-534):
requires both keys to be present, then stores `str(value)` for each with
no validation whatsoever and returns 200. -/
def set_temperature_range (s : DBState) (p : Option ConfigPayload) :
    Nat × DBState :=
  match p with
  | none => (400, s)
  | some d =>
      match d.min_temperature, d.max_temperature with
      | some vmin, some vmax =>
          (200,
           { s with
             config := configUpsert
               (configUpsert s.config ("min_temperature") (pyStr vmin))
               ("max_temperature") (pyStr vmax) })
      | _, _ => (400, s)

/-- Body of the import loop of `fetch_shipment_data_from_api`
(src/app.py lines 545-555): append the shipment unless its tracking
number is already present. -/
def addShipmentItem (st : DBState) (it : ShipmentPayload) : DBState :=
  match it.tracking_number with
  | none => st
  | some tn =>
      if (st.shipments.find? (fun sh => sh.tracking_number == tn)).isSome
      then st
      else
        { st with
          shipments := st.shipments ++
            [{ id := st.next_id, tracking_number := tn, origin := it.origin,
               destination := it.destination,
               current_status := it.current_status }],
          next_id := st.next_id + 1 }

/-- Translation of `fetch_shipment_data_from_api` + the
POST /fetch-shipments route (src/app.py lines 337-349 and 540-559): a
`RequestException` from the fetch is swallowed (printed) so the route
still answers 200; an item without "tracking_number" raises KeyError
mid-loop, reaching the route's generic 500 handler with nothing
committed; otherwise items with unseen tracking numbers are appended. -/
def fetch_shipments (s : DBState) (api_url : Option String)
    (resp : FetchResult (List ShipmentPayload)) : Nat × DBState :=
  match api_url with
  | none => (400, s)
  | some _ =>
      match resp with
      | FetchResult.httpError => (200, s)
      | FetchResult.networkError => (200, s)
      | FetchResult.ok items =>
          if items.any (fun it => it.tracking_number.isNone) then (500, s)
          else (200, items.foldl addShipmentItem s)

/-! ## The whole client-facing surface as one step relation -/

/-- One inbound HTTP request, with the upstream responses the handler
would consume.  This enumerates every route of src/app.py. -/
inductive Request where
  | ingest (p : IngestPayload) (fx : FetchResult (List TrackInfo))
      (oa : FetchResult (List Report)) : Request
  | fetchShipments (api_url : Option String)
      (resp : FetchResult (List ShipmentPayload)) : Request
  | createShipment (p : Option ShipmentPayload) : Request
  | getShipment (tn : String) : Request
  | getStatusHistory (tn : String) : Request
  | addStatus (tn : String) (p : Option StatusPayload) : Request
  | getSensorData (tn : String) : Request
  | addSensorData (tn : String) (p : Option SensorPayload) : Request
  | getAlerts (tn : String) : Request
  | getTempRange : Request
  | setTempRange (p : Option ConfigPayload) : Request

/-- Dispatch one request to its handler. -/
def step (s : DBState) (now : ℚ) : Request → Nat × DBState
  | Request.ingest p fx oa => ingest_data s p fx oa now
  | Request.fetchShipments u resp => fetch_shipments s u resp
  | Request.createShipment p => create_shipment s p
  | Request.getShipment tn => get_shipment s tn
  | Request.getStatusHistory tn => get_status_history s tn
  | Request.addStatus tn p => add_status s tn p now
  | Request.getSensorData tn => get_sensor_data s tn
  | Request.addSensorData tn p => add_sensor_data s tn p now
  | Request.getAlerts tn => get_temperature_alerts s tn
  | Request.getTempRange => ((get_temperature_range s).1, s)
  | Request.setTempRange p => set_temperature_range s p

/-- The requests whose handlers invoke the threshold evaluator: ingestion
and the manual sensor POST.  Every other route never touches the
TemperatureAlert table. -/
def Request.evaluatesThreshold : Request → Bool
  | Request.ingest _ _ _ => true
  | Request.addSensorData _ _ => true
  | _ => false

/-- Invariant: every TemperatureAlert row ever written carries one of
exactly the two literal alert types. -/
def alertTypesValid (s : DBState) : Prop :=
  ∀ a ∈ s.temperature_alerts,
    a.alert_type = "below_min" ∨ a.alert_type = "above_max"

/-- Scan events of the track result an ingestion request actually
processes: those of `completeTrackResults[0]`; empty whenever the scan
loop is never reached. -/
def headScanEvents : FetchResult (List TrackInfo) → List ScanEvent
  | FetchResult.ok (ti :: _) => ti.scanEvents
  | _ => []

/-- Reports carried by a successful sensor-telemetry response; empty on
a failed call. -/
def reportsOf : FetchResult (List Report) → List Report
  | FetchResult.ok l => l
  | _ => []

/-! ## Sample data for concrete evaluations -/

/-- Sample shipment used by concrete evaluations. -/
def exShipment : Shipment :=
  { id := 0, tracking_number := "TN", origin := none, destination := none,
    current_status := none }

/-- Sample database: one shipment, a configured min bound of "2.0". -/
def exStateMin : DBState :=
  { shipments := [exShipment], status_history := [], sensor_data := [],
    temperature_alerts := [],
    config := [{ key := "min_temperature", value := "2.0" }], next_id := 1 }

/-- Sample sensor POST body breaching the min bound (temperature 1). -/
def exSensorPayload : SensorPayload :=
  { temperature := some 1, humidity := none, location := none,
    timestamp := none }

/-- Sample complete /ingest payload with request-supplied bounds 2..8. -/
def exIngestPayload : IngestPayload :=
  { fedex_bearer_token := some ("ft"), onasset_token := some ("ot"),
    tracking_number := some ("TN"), sensor_id := some ("S1"),
    temp_min := some 2, temp_max := some 8 }

/-- Sample FedEx track result with no scan events. -/
def exTrackInfo : TrackInfo :=
  { originCity := some ("Memphis"), destinationCity := some ("Oslo"),
    statusByLocale := some ("In transit"), scanEvents := [] }

/-- Sample track result whose only scan event lacks a dateScan (the code
then stamps the row with the request's own clock value). -/
def exTrackInfoNoTs : TrackInfo :=
  { originCity := none, destinationCity := none, statusByLocale := none,
    scanEvents := [{ status := some ("Picked up"), scanLocationCity := none,
                     dateScan := none }] }

/-- Sample track result whose only scan event carries a dateScan. -/
def exTrackInfoTs : TrackInfo :=
  { originCity := none, destinationCity := none, statusByLocale := none,
    scanEvents := [{ status := some ("Picked up"), scanLocationCity := none,
                     dateScan := some 50 }] }

/-- Sample sensor report (timestamp and temperature present, within the
sample bounds 2..8 so no alert fires). -/
def exReport : Report :=
  { timestamp := some 60, location := none, temperature := some 5,
    humidity := none }

/-- Sample complete /ingest payload with NO request-supplied bounds, so
that bounds resolution must consult Config. -/
def exIngestPayloadNoBounds : IngestPayload :=
  { fedex_bearer_token := some ("ft"), onasset_token := some ("ot"),
    tracking_number := some ("TN"), sensor_id := some ("S1"),
    temp_min := none, temp_max := none }

/-- Sample status POST body with an explicit timestamp. -/
def exStatusPayload : StatusPayload :=
  { status := some ("Arrived"), location := none, timestamp := some 7 }

/-! ## Theorems -/

/-- The two alert-decision sites are textually identical if/elif chains
and denote the same function. -/
theorem alertDecisionIngest_eq_manual :
    alertDecisionIngest = alertDecisionManual := rfl

/-- Characterisation of the if/elif alert chain. -/
theorem alertDecisionManual_spec (lo hi : Option ℚ) (t : ℚ) :
    (alertDecisionManual lo hi t = some ("below_min") ↔
      ∃ m, lo = some m ∧ t < m)
    ∧ (alertDecisionManual lo hi t = some ("above_max") ↔
        (¬ ∃ m, lo = some m ∧ t < m) ∧ ∃ M, hi = some M ∧ M < t)
    ∧ (alertDecisionManual lo hi t = none ↔
        (¬ ∃ m, lo = some m ∧ t < m) ∧ ¬ ∃ M, hi = some M ∧ M < t) := by
  cases lo <;> cases hi <;>
    simp only [alertDecisionManual, belowCheck, aboveCheck, gt_iff_lt] <;>
    split_ifs <;>
    simp_all

/-- C1: for every temperature t, optional min bound lo and optional max
bound hi, the threshold evaluation yields below_min iff lo is set and
t < lo; yields above_max iff (not below_min) and hi is set and t > hi;
and yields no alert otherwise — at both alert-creation sites (the
manual sensor POST chain of `create_temp_alert_if_needed` and the
ingestion chain of `ingest_data`), with no guard on lo > hi. -/
theorem C1_threshold_evaluator (lo hi : Option ℚ) (t : ℚ) :
    ((alertDecisionManual lo hi t = some ("below_min") ↔
        ∃ m, lo = some m ∧ t < m)
      ∧ (alertDecisionManual lo hi t = some ("above_max") ↔
          (¬ ∃ m, lo = some m ∧ t < m) ∧ ∃ M, hi = some M ∧ M < t)
      ∧ (alertDecisionManual lo hi t = none ↔
          (¬ ∃ m, lo = some m ∧ t < m) ∧ ¬ ∃ M, hi = some M ∧ M < t))
    ∧ ((alertDecisionIngest lo hi t = some ("below_min") ↔
        ∃ m, lo = some m ∧ t < m)
      ∧ (alertDecisionIngest lo hi t = some ("above_max") ↔
          (¬ ∃ m, lo = some m ∧ t < m) ∧ ∃ M, hi = some M ∧ M < t)
      ∧ (alertDecisionIngest lo hi t = none ↔
          (¬ ∃ m, lo = some m ∧ t < m) ∧ ¬ ∃ M, hi = some M ∧ M < t)) := by
  refine ⟨alertDecisionManual_spec lo hi t, ?_⟩
  rw [alertDecisionIngest_eq_manual]
  exact alertDecisionManual_spec lo hi t

/-- `get_temp_range` reads only the config table. -/
theorem get_temp_range_config (s1 s2 : DBState) (h : s1.config = s2.config) :
    get_temp_range s1 = get_temp_range s2 := by
  unfold get_temp_range
  rw [h]

/-- C2 counterexample: with Config min_temperature "2.0" and an existing
shipment, POST /shipments/TN/sensor with temperature 1.5 returns 201 and
inserts one TemperatureAlert row — but ALSO inserts one StatusHistory
row (the "Temperature excursion: below_min" status event of
src/app.py lines 111-117), refuting the claim that this path inserts no
StatusHistory row. -/
theorem C2_counterexample :
    exStateMin.status_history.length = 0
    ∧ (add_sensor_data exStateMin ("TN") (some exSensorPayload) 100).1 = 201
    ∧ ((add_sensor_data exStateMin ("TN")
        (some exSensorPayload) 100).2).temperature_alerts.length = 1
    ∧ ((add_sensor_data exStateMin ("TN")
        (some exSensorPayload) 100).2).status_history.length = 1 := by
  decide

/-- C2 amended: a manual sensor POST whose temperature breaches a
Config-sourced bound inserts a TemperatureAlert row AND a StatusHistory
row whose status embeds the alert type ("Temperature excursion: " ++
alert_type), both timestamped with the request's clock value. -/
theorem C2_sensor_post_alert_and_status (s : DBState) (tn : String)
    (d : SensorPayload) (now t : ℚ) (sh : Shipment) (lo hi : Option ℚ)
    (a : String)
    (hfind : s.shipments.find? (fun x => x.tracking_number == tn) = some sh)
    (ht : d.temperature = some t)
    (hcfg : get_temp_range s = Except.ok (lo, hi))
    (halert : alertDecisionManual lo hi t = some a) :
    add_sensor_data s tn (some d) now =
      (201,
       { s with
         sensor_data := s.sensor_data ++
           [{ shipment_id := sh.id, timestamp := d.timestamp.getD now,
              temperature := t, humidity := d.humidity,
              location := d.location }],
         temperature_alerts := s.temperature_alerts ++
           [{ shipment_id := sh.id, timestamp := now, temperature := t,
              alert_type := a }],
         status_history := s.status_history ++
           [{ shipment_id := sh.id,
              status := "Temperature excursion: " ++ a, location := none,
              timestamp := now }] }) := by
  have hcfg1 : get_temp_range
      { s with sensor_data := s.sensor_data ++
          [{ shipment_id := sh.id, timestamp := d.timestamp.getD now,
             temperature := t, humidity := d.humidity,
             location := d.location }] } = Except.ok (lo, hi) :=
    (get_temp_range_config _ s rfl).trans hcfg
  simp only [add_sensor_data, hfind, ht, create_temp_alert_if_needed,
    hcfg1, halert]

/-- C2 witness: the amended theorem evaluated on the sample state. -/
theorem C2_witness :
    (exStateMin.shipments.find? (fun x => x.tracking_number == "TN") =
      some exShipment)
    ∧ (exSensorPayload.temperature = some 1)
    ∧ (get_temp_range exStateMin = Except.ok (some 2, none))
    ∧ (alertDecisionManual (some 2) none 1 = some ("below_min"))
    ∧ add_sensor_data exStateMin ("TN") (some exSensorPayload) 100 =
      (201,
       { exStateMin with
         sensor_data := exStateMin.sensor_data ++
           [{ shipment_id := exShipment.id,
              timestamp := exSensorPayload.timestamp.getD 100,
              temperature := 1, humidity := exSensorPayload.humidity,
              location := exSensorPayload.location }],
         temperature_alerts := exStateMin.temperature_alerts ++
           [{ shipment_id := exShipment.id, timestamp := 100,
              temperature := 1, alert_type := "below_min" }],
         status_history := exStateMin.status_history ++
           [{ shipment_id := exShipment.id,
              status := "Temperature excursion: " ++ "below_min",
              location := none, timestamp := 100 }] }) :=
  ⟨by decide, rfl, by rfl,
   by decide,
   C2_sensor_post_alert_and_status exStateMin ("TN") exSensorPayload 100
     1 exShipment (some 2) none ("below_min") (by decide) rfl (by rfl)
     (by decide)⟩

/-- C3 counterexample: a network failure from the tracking provider (a
`requests.ConnectionError`, which is not an `HTTPError`) makes the
/ingest request answer the generic 500, not the 502 upstream-error
outcome the claim asserts. -/
theorem C3_counterexample :
    (ingest_data DBState.empty exIngestPayload FetchResult.networkError
      (FetchResult.ok []) 0).1 = 500
    ∧ ¬ (ingest_data DBState.empty exIngestPayload FetchResult.networkError
      (FetchResult.ok []) 0).1 = 502 := by
  decide

/-- C3 amended: for every /ingest request with the required keys present
and resolvable bounds, a non-2xx HTTP response (`requests.HTTPError`)
from either external provider yields the 502 upstream-error outcome,
while a network failure from either provider is NOT an `HTTPError`,
falls through to the broad exception handler, and yields the generic
500 internal error. -/
theorem C3_upstream_errors (s : DBState) (p : IngestPayload)
    (oa : FetchResult (List Report)) (ti : TrackInfo)
    (rest : List TrackInfo) (now : ℚ) (b : Option ℚ × Option ℚ)
    (h1 : p.fedex_bearer_token.isNone = false)
    (h2 : p.onasset_token.isNone = false)
    (h3 : p.tracking_number.isNone = false)
    (h4 : p.sensor_id.isNone = false)
    (hb : resolveBounds s p = Except.ok b) :
    (ingest_data s p FetchResult.httpError oa now).1 = 502
    ∧ (ingest_data s p FetchResult.networkError oa now).1 = 500
    ∧ (ingest_data s p (FetchResult.ok (ti :: rest))
        FetchResult.httpError now).1 = 502
    ∧ (ingest_data s p (FetchResult.ok (ti :: rest))
        FetchResult.networkError now).1 = 500 := by
  obtain ⟨bmin, bmax⟩ := b
  simp only [ingest_data, h1, h2, h3, h4, hb, Bool.or_self, Bool.false_or,
    Bool.or_false, if_false, Bool.false_eq_true]
  simp

/-- C3 witness: the amended theorem evaluated on the empty database and
the sample payload. -/
theorem C3_witness :
    (exIngestPayload.fedex_bearer_token.isNone = false)
    ∧ (exIngestPayload.onasset_token.isNone = false)
    ∧ (exIngestPayload.tracking_number.isNone = false)
    ∧ (exIngestPayload.sensor_id.isNone = false)
    ∧ (resolveBounds DBState.empty exIngestPayload =
        Except.ok (some 2, some 8))
    ∧ ((ingest_data DBState.empty exIngestPayload FetchResult.httpError
          (FetchResult.ok []) 0).1 = 502
      ∧ (ingest_data DBState.empty exIngestPayload FetchResult.networkError
          (FetchResult.ok []) 0).1 = 500
      ∧ (ingest_data DBState.empty exIngestPayload
          (FetchResult.ok (exTrackInfo :: [])) FetchResult.httpError 0).1 = 502
      ∧ (ingest_data DBState.empty exIngestPayload
          (FetchResult.ok (exTrackInfo :: [])) FetchResult.networkError 0).1
          = 500) :=
  ⟨rfl, rfl, rfl, rfl, rfl,
   C3_upstream_errors DBState.empty exIngestPayload (FetchResult.ok [])
     exTrackInfo [] 0 (some 2, some 8) rfl rfl rfl rfl rfl⟩

/-! ## Structural lemmas about the ingestion pipeline -/

/-- Unfolding lemma for the scan-event fold. -/
theorem processScanEvents_nil (sid : Nat) (now : ℚ) (st : DBState) :
    processScanEvents sid now st [] = st := rfl

/-- Unfolding lemma for the scan-event fold. -/
theorem processScanEvents_cons (sid : Nat) (now : ℚ) (st : DBState)
    (a : ScanEvent) (tl : List ScanEvent) :
    processScanEvents sid now st (a :: tl) =
      processScanEvents sid now (processScanEvent sid now st a) tl := rfl

/-- Unfolding lemma for the report fold. -/
theorem processReports_nil (sid : Nat) (tmin tmax : Option ℚ) (st : DBState) :
    processReports sid tmin tmax st [] = st := rfl

/-- Unfolding lemma for the report fold. -/
theorem processReports_cons (sid : Nat) (tmin tmax : Option ℚ) (st : DBState)
    (a : Report) (tl : List Report) :
    processReports sid tmin tmax st (a :: tl) =
      processReports sid tmin tmax (processReport sid tmin tmax st a) tl := rfl

/-- A scan-event step touches only the status_history table. -/
theorem processScanEvent_tables (sid : Nat) (now : ℚ) (st : DBState)
    (e : ScanEvent) :
    (processScanEvent sid now st e).shipments = st.shipments
    ∧ (processScanEvent sid now st e).sensor_data = st.sensor_data
    ∧ (processScanEvent sid now st e).temperature_alerts =
        st.temperature_alerts
    ∧ (processScanEvent sid now st e).config = st.config
    ∧ (processScanEvent sid now st e).next_id = st.next_id := by
  by_cases h : scanRow sid now e ∈ st.status_history <;>
    simp [processScanEvent, h]

/-- The scan-event loop touches only the status_history table. -/
theorem processScanEvents_tables (sid : Nat) (now : ℚ) (es : List ScanEvent) :
    ∀ st : DBState,
    (processScanEvents sid now st es).shipments = st.shipments
    ∧ (processScanEvents sid now st es).sensor_data = st.sensor_data
    ∧ (processScanEvents sid now st es).temperature_alerts =
        st.temperature_alerts
    ∧ (processScanEvents sid now st es).config = st.config
    ∧ (processScanEvents sid now st es).next_id = st.next_id := by
  induction es with
  | nil => intro st; simp [processScanEvents_nil]
  | cons a tl ih =>
      intro st
      have h1 := processScanEvent_tables sid now st a
      have h2 := ih (processScanEvent sid now st a)
      rw [processScanEvents_cons]
      exact ⟨h2.1.trans h1.1, h2.2.1.trans h1.2.1,
        h2.2.2.1.trans h1.2.2.1, h2.2.2.2.1.trans h1.2.2.2.1,
        h2.2.2.2.2.trans h1.2.2.2.2⟩

/-- A scan-event step only ever appends to status_history. -/
theorem processScanEvent_status_mono (sid : Nat) (now : ℚ) (st : DBState)
    (e : ScanEvent) (r : StatusHistory) (h : r ∈ st.status_history) :
    r ∈ (processScanEvent sid now st e).status_history := by
  by_cases hm : scanRow sid now e ∈ st.status_history <;>
    simp [processScanEvent, hm]
  · exact h
  · exact Or.inl h

/-- After a scan-event step, the step's own row is present. -/
theorem processScanEvent_self_mem (sid : Nat) (now : ℚ) (st : DBState)
    (e : ScanEvent) :
    scanRow sid now e ∈ (processScanEvent sid now st e).status_history := by
  by_cases hm : scanRow sid now e ∈ st.status_history <;>
    simp [processScanEvent, hm]

/-- The scan-event loop only ever appends to status_history. -/
theorem processScanEvents_status_mono (sid : Nat) (now : ℚ)
    (es : List ScanEvent) :
    ∀ (st : DBState) (r : StatusHistory), r ∈ st.status_history →
      r ∈ (processScanEvents sid now st es).status_history := by
  induction es with
  | nil => intro st r h; simpa [processScanEvents_nil] using h
  | cons a tl ih =>
      intro st r h
      rw [processScanEvents_cons]
      exact ih _ r (processScanEvent_status_mono sid now st a r h)

/-- After the scan-event loop, every processed event's row is present. -/
theorem processScanEvents_self_mem (sid : Nat) (now : ℚ)
    (es : List ScanEvent) :
    ∀ (st : DBState) (e : ScanEvent), e ∈ es →
      scanRow sid now e ∈ (processScanEvents sid now st es).status_history := by
  induction es with
  | nil => intro st e h; cases h
  | cons a tl ih =>
      intro st e h
      rw [processScanEvents_cons]
      rcases List.mem_cons.mp h with h | h
      · subst h
        exact processScanEvents_status_mono sid now tl _ _
          (processScanEvent_self_mem sid now st e)
      · exact ih _ e h

/-- The scan-event loop is the identity once every event's row already
exists: the full-field dedup of src/app.py lines 237-243. -/
theorem processScanEvents_skip (sid : Nat) (now : ℚ) (es : List ScanEvent) :
    ∀ st : DBState, (∀ e ∈ es, scanRow sid now e ∈ st.status_history) →
      processScanEvents sid now st es = st := by
  induction es with
  | nil => intro st _; rfl
  | cons a tl ih =>
      intro st h
      have ha : processScanEvent sid now st a = st := by
        simp [processScanEvent, h a (List.mem_cons_self a tl)]
      rw [processScanEvents_cons, ha]
      exact ih st (fun e he => h e (List.mem_cons_of_mem a he))

/-- A report step never touches shipments, config or the id counter. -/
theorem processReport_tables (sid : Nat) (tmin tmax : Option ℚ)
    (st : DBState) (rec : Report) :
    (processReport sid tmin tmax st rec).shipments = st.shipments
    ∧ (processReport sid tmin tmax st rec).config = st.config
    ∧ (processReport sid tmin tmax st rec).next_id = st.next_id := by
  rcases hts : rec.timestamp with _ | ts <;>
    rcases htemp : rec.temperature with _ | temp <;>
    simp only [processReport, hts, htemp]
  · simp
  · simp
  · simp
  · by_cases hm : reportRow sid rec ∈ st.sensor_data
    · simp [hm]
    · cases halert : alertDecisionIngest tmin tmax temp <;> simp [hm, halert]

/-- The report loop never touches shipments, config or the id counter. -/
theorem processReports_tables (sid : Nat) (tmin tmax : Option ℚ)
    (recs : List Report) :
    ∀ st : DBState,
    (processReports sid tmin tmax st recs).shipments = st.shipments
    ∧ (processReports sid tmin tmax st recs).config = st.config
    ∧ (processReports sid tmin tmax st recs).next_id = st.next_id := by
  induction recs with
  | nil => intro st; simp [processReports_nil]
  | cons a tl ih =>
      intro st
      have h1 := processReport_tables sid tmin tmax st a
      have h2 := ih (processReport sid tmin tmax st a)
      rw [processReports_cons]
      exact ⟨h2.1.trans h1.1, h2.2.1.trans h1.2.1, h2.2.2.trans h1.2.2⟩

/-- A report step only ever appends to sensor_data. -/
theorem processReport_sensor_mono (sid : Nat) (tmin tmax : Option ℚ)
    (st : DBState) (rec : Report) (r : SensorData) (h : r ∈ st.sensor_data) :
    r ∈ (processReport sid tmin tmax st rec).sensor_data := by
  rcases hts : rec.timestamp with _ | ts <;>
    rcases htemp : rec.temperature with _ | temp <;>
    simp only [processReport, hts, htemp]
  · exact h
  · exact h
  · exact h
  · by_cases hm : reportRow sid rec ∈ st.sensor_data
    · simpa [hm] using h
    · cases halert : alertDecisionIngest tmin tmax temp <;>
        simp [hm, halert] <;> exact Or.inl h

/-- A report step only ever appends to status_history. -/
theorem processReport_status_mono (sid : Nat) (tmin tmax : Option ℚ)
    (st : DBState) (rec : Report) (r : StatusHistory)
    (h : r ∈ st.status_history) :
    r ∈ (processReport sid tmin tmax st rec).status_history := by
  rcases hts : rec.timestamp with _ | ts <;>
    rcases htemp : rec.temperature with _ | temp <;>
    simp only [processReport, hts, htemp]
  · exact h
  · exact h
  · exact h
  · by_cases hm : reportRow sid rec ∈ st.sensor_data
    · simpa [hm] using h
    · cases halert : alertDecisionIngest tmin tmax temp <;>
        simp [hm, halert]
      · exact h
      · exact Or.inl h

/-- After a report step with timestamp and temperature present, the
step's own sensor row is present. -/
theorem processReport_self_mem (sid : Nat) (tmin tmax : Option ℚ)
    (st : DBState) (rec : Report) (ts temp : ℚ)
    (hts : rec.timestamp = some ts) (htemp : rec.temperature = some temp) :
    reportRow sid rec ∈ (processReport sid tmin tmax st rec).sensor_data := by
  simp only [processReport, hts, htemp]
  by_cases hm : reportRow sid rec ∈ st.sensor_data
  · simp [hm]
  · cases halert : alertDecisionIngest tmin tmax temp <;> simp [hm, halert]

/-- The report loop only ever appends to sensor_data. -/
theorem processReports_sensor_mono (sid : Nat) (tmin tmax : Option ℚ)
    (recs : List Report) :
    ∀ (st : DBState) (r : SensorData), r ∈ st.sensor_data →
      r ∈ (processReports sid tmin tmax st recs).sensor_data := by
  induction recs with
  | nil => intro st r h; simpa [processReports_nil] using h
  | cons a tl ih =>
      intro st r h
      rw [processReports_cons]
      exact ih _ r (processReport_sensor_mono sid tmin tmax st a r h)

/-- The report loop only ever appends to status_history. -/
theorem processReports_status_mono (sid : Nat) (tmin tmax : Option ℚ)
    (recs : List Report) :
    ∀ (st : DBState) (r : StatusHistory), r ∈ st.status_history →
      r ∈ (processReports sid tmin tmax st recs).status_history := by
  induction recs with
  | nil => intro st r h; simpa [processReports_nil] using h
  | cons a tl ih =>
      intro st r h
      rw [processReports_cons]
      exact ih _ r (processReport_status_mono sid tmin tmax st a r h)

/-- After the report loop, every insertable report's sensor row is
present. -/
theorem processReports_self_mem (sid : Nat) (tmin tmax : Option ℚ)
    (recs : List Report) :
    ∀ (st : DBState) (rec : Report), rec ∈ recs →
      ∀ ts temp : ℚ, rec.timestamp = some ts → rec.temperature = some temp →
      reportRow sid rec ∈
        (processReports sid tmin tmax st recs).sensor_data := by
  induction recs with
  | nil => intro st rec h; cases h
  | cons a tl ih =>
      intro st rec h ts temp hts htemp
      rw [processReports_cons]
      rcases List.mem_cons.mp h with h | h
      · subst h
        exact processReports_sensor_mono sid tmin tmax tl _ _
          (processReport_self_mem sid tmin tmax st rec ts temp hts htemp)
      · exact ih _ rec h ts temp hts htemp

/-- The report loop is the identity once every insertable report's row
already exists: the full-field dedup of src/app.py lines 271-277 (and
reports with a missing timestamp or temperature are always skipped). -/
theorem processReports_skip (sid : Nat) (tmin tmax : Option ℚ)
    (recs : List Report) :
    ∀ st : DBState,
      (∀ rec ∈ recs, ∀ ts temp : ℚ, rec.timestamp = some ts →
        rec.temperature = some temp → reportRow sid rec ∈ st.sensor_data) →
      processReports sid tmin tmax st recs = st := by
  induction recs with
  | nil => intro st _; rfl
  | cons a tl ih =>
      intro st h
      have ha : processReport sid tmin tmax st a = st := by
        rcases hts : a.timestamp with _ | ts <;>
          rcases htemp : a.temperature with _ | temp <;>
          simp only [processReport, hts, htemp]
        exact if_pos (h a (List.mem_cons_self a tl) ts temp hts htemp)
      rw [processReports_cons, ha]
      exact ih st (fun rec hrec => h rec (List.mem_cons_of_mem a hrec))

/-- The shipment upsert touches no table but shipments. -/
theorem upsertShipment_tables (s : DBState) (tn : String)
    (o d c : Option String) :
    ((upsertShipment s tn o d c).2).status_history = s.status_history
    ∧ ((upsertShipment s tn o d c).2).sensor_data = s.sensor_data
    ∧ ((upsertShipment s tn o d c).2).temperature_alerts =
        s.temperature_alerts
    ∧ ((upsertShipment s tn o d c).2).config = s.config := by
  unfold upsertShipment
  cases hfind : s.shipments.find? (fun sh => sh.tracking_number == tn) <;>
    simp

/-- Updating the first matching shipment in place commutes with lookup
by tracking number, provided the update preserves the tracking
number. -/
theorem find?_updateFirstShipment (l : List Shipment) (tn : String)
    (f : Shipment → Shipment)
    (hf : ∀ x, (f x).tracking_number = x.tracking_number) :
    (updateFirstShipment l tn f).find?
        (fun sh => sh.tracking_number == tn) =
      (l.find? (fun sh => sh.tracking_number == tn)).map f := by
  induction l with
  | nil => rfl
  | cons x xs ih =>
      by_cases h : x.tracking_number == tn
      · simp [updateFirstShipment, h, List.find?_cons, hf]
      · simp only [updateFirstShipment, h, if_false, Bool.false_eq_true]
        rw [List.find?_cons, List.find?_cons]
        simp only [h]
        exact ih

/-- After the upsert, looking the tracking number up finds a shipment
carrying exactly the upserted fields and the returned id. -/
theorem upsertShipment_find (s : DBState) (tn : String)
    (o d c : Option String) :
    ((upsertShipment s tn o d c).2).shipments.find?
        (fun sh => sh.tracking_number == tn) =
      some { id := (upsertShipment s tn o d c).1, tracking_number := tn,
             origin := o, destination := d, current_status := c } := by
  rcases hfind : s.shipments.find? (fun sh => sh.tracking_number == tn)
    with _ | sh
  · simp only [upsertShipment, hfind]
    rw [List.find?_append, hfind]
    simp [List.find?_cons]
  · have htn : sh.tracking_number = tn := by
      have := List.find?_some hfind
      simpa using this
    simp only [upsertShipment, hfind]
    rw [find?_updateFirstShipment s.shipments tn
      (fun x => { x with origin := o, destination := d, current_status := c })
      (fun x => rfl), hfind]
    simp [htn]

/-- /ingest with a missing required key answers 400 and writes
nothing. -/
theorem ingest_data_missing_key (s : DBState) (p : IngestPayload)
    (fx : FetchResult (List TrackInfo)) (oa : FetchResult (List Report))
    (now : ℚ)
    (h : (p.fedex_bearer_token.isNone || p.onasset_token.isNone ||
      p.tracking_number.isNone || p.sensor_id.isNone) = true) :
    ingest_data s p fx oa now = (400, s) := by
  simp [ingest_data, h]

/-- /ingest whose Config-sourced bound fails `float()` answers 500 (the
exception escapes the `try:`) and writes nothing. -/
theorem ingest_data_bounds_error (s : DBState) (p : IngestPayload)
    (fx : FetchResult (List TrackInfo)) (oa : FetchResult (List Report))
    (now : ℚ) (e : PyError)
    (h : (p.fedex_bearer_token.isNone || p.onasset_token.isNone ||
      p.tracking_number.isNone || p.sensor_id.isNone) = false)
    (hb : resolveBounds s p = Except.error e) :
    ingest_data s p fx oa now = (500, s) := by
  simp [ingest_data, h, hb]

/-- /ingest outcomes of the tracking call short of the main pipeline:
HTTP error 502, network error 500, empty result list 404 — all with the
database untouched. -/
theorem ingest_data_fedex_exits (s : DBState) (p : IngestPayload)
    (oa : FetchResult (List Report)) (now : ℚ) (bmin bmax : Option ℚ)
    (h : (p.fedex_bearer_token.isNone || p.onasset_token.isNone ||
      p.tracking_number.isNone || p.sensor_id.isNone) = false)
    (hb : resolveBounds s p = Except.ok (bmin, bmax)) :
    ingest_data s p FetchResult.httpError oa now = (502, s)
    ∧ ingest_data s p FetchResult.networkError oa now = (500, s)
    ∧ ingest_data s p (FetchResult.ok []) oa now = (404, s) := by
  refine ⟨?_, ?_, ?_⟩ <;> simp [ingest_data, h, hb]

/-- /ingest with a nonempty tracking result runs the pipeline: shipment
upsert, scan-event loop, then the sensor call outcome decides between
502/500 with the partial state and 200 with the report loop's state. -/
theorem ingest_data_main (s : DBState) (p : IngestPayload) (tn : String)
    (oa : FetchResult (List Report)) (ti : TrackInfo)
    (rest : List TrackInfo) (now : ℚ) (bmin bmax : Option ℚ)
    (h : (p.fedex_bearer_token.isNone || p.onasset_token.isNone ||
      p.tracking_number.isNone || p.sensor_id.isNone) = false)
    (htn : p.tracking_number = some tn)
    (hb : resolveBounds s p = Except.ok (bmin, bmax)) :
    ingest_data s p (FetchResult.ok (ti :: rest)) oa now =
      (match oa with
       | FetchResult.httpError =>
           (502, processScanEvents
             (upsertShipment s tn ti.originCity ti.destinationCity
               ti.statusByLocale).1 now
             (upsertShipment s tn ti.originCity ti.destinationCity
               ti.statusByLocale).2 ti.scanEvents)
       | FetchResult.networkError =>
           (500, processScanEvents
             (upsertShipment s tn ti.originCity ti.destinationCity
               ti.statusByLocale).1 now
             (upsertShipment s tn ti.originCity ti.destinationCity
               ti.statusByLocale).2 ti.scanEvents)
       | FetchResult.ok reports =>
           (200, processReports
             (upsertShipment s tn ti.originCity ti.destinationCity
               ti.statusByLocale).1 bmin bmax
             (processScanEvents
               (upsertShipment s tn ti.originCity ti.destinationCity
                 ti.statusByLocale).1 now
               (upsertShipment s tn ti.originCity ti.destinationCity
                 ti.statusByLocale).2 ti.scanEvents) reports)) := by
  simp only [Bool.or_eq_false_iff] at h
  obtain ⟨⟨⟨h1, h2⟩, h3⟩, h4⟩ := h
  simp [ingest_data, h1, h2, h3, h4, hb, htn]

/-- C6: for every /ingest request (required keys present, bounds
resolvable — the code reaches the tracking call) in which the tracking
provider returns an empty or absent completeTrackResults list (both read
back as the empty list via `.get` defaults), the request answers 404 —
the not-found outcome, not 400 — and the database is returned untouched:
no Shipment, StatusHistory or SensorData row is written. -/
theorem C6_ingest_no_results_404 (s : DBState) (p : IngestPayload)
    (oa : FetchResult (List Report)) (now : ℚ) (bmin bmax : Option ℚ)
    (h : (p.fedex_bearer_token.isNone || p.onasset_token.isNone ||
      p.tracking_number.isNone || p.sensor_id.isNone) = false)
    (hb : resolveBounds s p = Except.ok (bmin, bmax)) :
    ingest_data s p (FetchResult.ok []) oa now = (404, s) :=
  (ingest_data_fedex_exits s p oa now bmin bmax h hb).2.2

/-- C6 witness: the theorem evaluated on the empty database and the
sample payload. -/
theorem C6_witness :
    ((exIngestPayload.fedex_bearer_token.isNone ||
      exIngestPayload.onasset_token.isNone ||
      exIngestPayload.tracking_number.isNone ||
      exIngestPayload.sensor_id.isNone) = false)
    ∧ (resolveBounds DBState.empty exIngestPayload =
        Except.ok (some 2, some 8))
    ∧ ingest_data DBState.empty exIngestPayload (FetchResult.ok [])
        (FetchResult.ok []) 0 = (404, DBState.empty) :=
  ⟨rfl, rfl,
   C6_ingest_no_results_404 DBState.empty exIngestPayload
     (FetchResult.ok []) 0 (some 2) (some 8) rfl rfl⟩

/-- C5: if the sensor-telemetry call during /ingest raises an HTTP
error, the request answers 502 while the Shipment upsert and the
StatusHistory rows committed by the scan-event loop of that same
request remain in the returned state — and no SensorData or
TemperatureAlert row of the request survives (partial success, no
rollback). -/
theorem C5_onasset_http_partial (s : DBState) (p : IngestPayload)
    (tn : String) (ti : TrackInfo) (rest : List TrackInfo) (now : ℚ)
    (bmin bmax : Option ℚ)
    (h : (p.fedex_bearer_token.isNone || p.onasset_token.isNone ||
      p.tracking_number.isNone || p.sensor_id.isNone) = false)
    (htn : p.tracking_number = some tn)
    (hb : resolveBounds s p = Except.ok (bmin, bmax)) :
    (ingest_data s p (FetchResult.ok (ti :: rest))
        FetchResult.httpError now).1 = 502
    ∧ ((ingest_data s p (FetchResult.ok (ti :: rest))
        FetchResult.httpError now).2).shipments.find?
          (fun sh => sh.tracking_number == tn) =
        some { id := (upsertShipment s tn ti.originCity ti.destinationCity
                 ti.statusByLocale).1,
               tracking_number := tn, origin := ti.originCity,
               destination := ti.destinationCity,
               current_status := ti.statusByLocale }
    ∧ (∀ e ∈ ti.scanEvents,
        scanRow (upsertShipment s tn ti.originCity ti.destinationCity
          ti.statusByLocale).1 now e ∈
          ((ingest_data s p (FetchResult.ok (ti :: rest))
            FetchResult.httpError now).2).status_history)
    ∧ ((ingest_data s p (FetchResult.ok (ti :: rest))
        FetchResult.httpError now).2).sensor_data = s.sensor_data
    ∧ ((ingest_data s p (FetchResult.ok (ti :: rest))
        FetchResult.httpError now).2).temperature_alerts =
        s.temperature_alerts := by
  have hm : ingest_data s p (FetchResult.ok (ti :: rest))
      FetchResult.httpError now =
      (502, processScanEvents
        (upsertShipment s tn ti.originCity ti.destinationCity
          ti.statusByLocale).1 now
        (upsertShipment s tn ti.originCity ti.destinationCity
          ti.statusByLocale).2 ti.scanEvents) := by
    rw [ingest_data_main s p tn FetchResult.httpError ti rest now bmin bmax
      h htn hb]
  have htab := processScanEvents_tables
    (upsertShipment s tn ti.originCity ti.destinationCity
      ti.statusByLocale).1 now ti.scanEvents
    (upsertShipment s tn ti.originCity ti.destinationCity
      ti.statusByLocale).2
  have hut := upsertShipment_tables s tn ti.originCity ti.destinationCity
    ti.statusByLocale
  refine ⟨by rw [hm], ?_, ?_, ?_, ?_⟩
  · rw [hm]
    show (processScanEvents _ now _ ti.scanEvents).shipments.find? _ = _
    rw [htab.1]
    exact upsertShipment_find s tn ti.originCity ti.destinationCity
      ti.statusByLocale
  · intro e he
    rw [hm]
    exact processScanEvents_self_mem _ now ti.scanEvents _ e he
  · rw [hm]
    show (processScanEvents _ now _ ti.scanEvents).sensor_data = _
    rw [htab.2.1]
    exact hut.2.1
  · rw [hm]
    show (processScanEvents _ now _ ti.scanEvents).temperature_alerts = _
    rw [htab.2.2.1]
    exact hut.2.2.1

/-- C5 witness: the theorem evaluated on the empty database, the sample
payload and the sample track result. -/
theorem C5_witness :
    ((exIngestPayload.fedex_bearer_token.isNone ||
      exIngestPayload.onasset_token.isNone ||
      exIngestPayload.tracking_number.isNone ||
      exIngestPayload.sensor_id.isNone) = false)
    ∧ (exIngestPayload.tracking_number = some ("TN"))
    ∧ (resolveBounds DBState.empty exIngestPayload =
        Except.ok (some 2, some 8))
    ∧ ((ingest_data DBState.empty exIngestPayload
          (FetchResult.ok (exTrackInfo :: [])) FetchResult.httpError 0).1
          = 502
      ∧ ((ingest_data DBState.empty exIngestPayload
          (FetchResult.ok (exTrackInfo :: []))
          FetchResult.httpError 0).2).shipments.find?
            (fun sh => sh.tracking_number == "TN") =
          some { id := (upsertShipment DBState.empty ("TN")
                   exTrackInfo.originCity exTrackInfo.destinationCity
                   exTrackInfo.statusByLocale).1,
                 tracking_number := "TN", origin := exTrackInfo.originCity,
                 destination := exTrackInfo.destinationCity,
                 current_status := exTrackInfo.statusByLocale }
      ∧ (∀ e ∈ exTrackInfo.scanEvents,
          scanRow (upsertShipment DBState.empty ("TN")
            exTrackInfo.originCity exTrackInfo.destinationCity
            exTrackInfo.statusByLocale).1 0 e ∈
            ((ingest_data DBState.empty exIngestPayload
              (FetchResult.ok (exTrackInfo :: []))
              FetchResult.httpError 0).2).status_history)
      ∧ ((ingest_data DBState.empty exIngestPayload
          (FetchResult.ok (exTrackInfo :: []))
          FetchResult.httpError 0).2).sensor_data = DBState.empty.sensor_data
      ∧ ((ingest_data DBState.empty exIngestPayload
          (FetchResult.ok (exTrackInfo :: []))
          FetchResult.httpError 0).2).temperature_alerts =
          DBState.empty.temperature_alerts) :=
  ⟨rfl, rfl, rfl,
   C5_onasset_http_partial DBState.empty exIngestPayload ("TN") exTrackInfo
     [] 0 (some 2) (some 8) rfl rfl rfl⟩

/-- Bounds resolution reads the database only through the config
table. -/
theorem resolveBounds_config (s1 s2 : DBState) (p : IngestPayload)
    (h : s1.config = s2.config) :
    resolveBounds s1 p = resolveBounds s2 p := by
  unfold resolveBounds
  rw [get_temp_range_config s1 s2 h]

/-- A scan event carrying its own dateScan yields the same row whatever
the request clock says. -/
theorem scanRow_now_indep (sid : Nat) (now1 now2 : ℚ) (e : ScanEvent)
    (h : (e.dateScan).isSome = true) :
    scanRow sid now2 e = scanRow sid now1 e := by
  rcases hts : e.dateScan with _ | ts
  · rw [hts] at h; cases h
  · unfold scanRow; rw [hts]; rfl

/-- The upsert on a tracking number already present takes the update
branch: same id, first matching row overwritten in place. -/
theorem upsertShipment_found (s : DBState) (tn : String)
    (o d c : Option String) (sh : Shipment)
    (hfind : s.shipments.find? (fun x => x.tracking_number == tn) = some sh) :
    upsertShipment s tn o d c =
      (sh.id,
       { s with shipments := updateFirstShipment s.shipments tn (fun x => { x with origin := o, destination := d, current_status := c }) }) := by
  simp only [upsertShipment, hfind]

/-- C4 counterexample: one ingestion whose single scan event has no
dateScan inserts one StatusHistory row stamped with the first request's
clock; re-ingesting the identical payload and identical upstream
responses at a later clock value inserts a second row — re-ingestion is
NOT idempotent for scan events with absent timestamps. -/
theorem C4_counterexample :
    ((ingest_data DBState.empty exIngestPayload
        (FetchResult.ok [exTrackInfoNoTs]) (FetchResult.ok [])
        0).2).status_history.length = 1
    ∧ ((ingest_data
        (ingest_data DBState.empty exIngestPayload
          (FetchResult.ok [exTrackInfoNoTs]) (FetchResult.ok []) 0).2
        exIngestPayload (FetchResult.ok [exTrackInfoNoTs])
        (FetchResult.ok []) 1).2).status_history.length = 2 := by
  decide

/-- Re-running the main /ingest pipeline over a state that already
contains the shipment, every scan-event row (at this run's clock) and
every insertable report's sensor row leaves all three row tables
untouched: the upsert only rewrites the shipment in place and both
dedup loops skip every insert. -/
theorem ingest_rerun_tables (st : DBState) (p : IngestPayload) (tn : String)
    (ti : TrackInfo) (rest : List TrackInfo) (oa : FetchResult (List Report))
    (now : ℚ) (bmin bmax : Option ℚ) (sh : Shipment)
    (hreq : (p.fedex_bearer_token.isNone || p.onasset_token.isNone ||
      p.tracking_number.isNone || p.sensor_id.isNone) = false)
    (htn : p.tracking_number = some tn)
    (hb : resolveBounds st p = Except.ok (bmin, bmax))
    (hfind : st.shipments.find? (fun x => x.tracking_number == tn) = some sh)
    (hscanmem : ∀ e ∈ ti.scanEvents, scanRow sh.id now e ∈ st.status_history)
    (hrepmem : ∀ r ∈ reportsOf oa, ∀ ts temp : ℚ, r.timestamp = some ts →
      r.temperature = some temp → reportRow sh.id r ∈ st.sensor_data) :
    ((ingest_data st p (FetchResult.ok (ti :: rest)) oa now).2).status_history = st.status_history
    ∧ ((ingest_data st p (FetchResult.ok (ti :: rest)) oa now).2).sensor_data = st.sensor_data
    ∧ ((ingest_data st p (FetchResult.ok (ti :: rest)) oa now).2).temperature_alerts = st.temperature_alerts := by
  have hup := upsertShipment_found st tn ti.originCity ti.destinationCity
    ti.statusByLocale sh hfind
  have hm := ingest_data_main st p tn oa ti rest now bmin bmax hreq htn hb
  cases oa with
  | httpError =>
      simp only [hm, hup]
      rw [processScanEvents_skip sh.id now ti.scanEvents
        { st with shipments := updateFirstShipment st.shipments tn (fun x => { x with origin := ti.originCity, destination := ti.destinationCity, current_status := ti.statusByLocale }) }
        (fun e he => hscanmem e he)]
      exact ⟨rfl, rfl, rfl⟩
  | networkError =>
      simp only [hm, hup]
      rw [processScanEvents_skip sh.id now ti.scanEvents
        { st with shipments := updateFirstShipment st.shipments tn (fun x => { x with origin := ti.originCity, destination := ti.destinationCity, current_status := ti.statusByLocale }) }
        (fun e he => hscanmem e he)]
      exact ⟨rfl, rfl, rfl⟩
  | ok reports =>
      simp only [hm, hup]
      rw [processScanEvents_skip sh.id now ti.scanEvents
        { st with shipments := updateFirstShipment st.shipments tn (fun x => { x with origin := ti.originCity, destination := ti.destinationCity, current_status := ti.statusByLocale }) }
        (fun e he => hscanmem e he)]
      rw [processReports_skip sh.id bmin bmax reports
        { st with shipments := updateFirstShipment st.shipments tn (fun x => { x with origin := ti.originCity, destination := ti.destinationCity, current_status := ti.statusByLocale }) }
        (fun r hr ts temp h1 h2 => hrepmem r hr ts temp h1 h2)]
      exact ⟨rfl, rfl, rfl⟩

/-- C4 amended: for every pair of consecutive /ingest requests with
identical payloads and identical upstream responses, PROVIDED every scan
event of the processed track result carries a dateScan, the second
request inserts no additional StatusHistory, SensorData or
TemperatureAlert row (full-field-match dedup; reports lacking a
timestamp or temperature are skipped outright, so they never break
idempotence — scan events lacking dateScan do, as they are stamped with
each request's own clock). -/
theorem C4_reingest_idempotent (s : DBState) (p : IngestPayload)
    (fx : FetchResult (List TrackInfo)) (oa : FetchResult (List Report))
    (now1 now2 : ℚ)
    (hts : ∀ e ∈ headScanEvents fx, (e.dateScan).isSome = true) :
    ((ingest_data (ingest_data s p fx oa now1).2 p fx oa
        now2).2).status_history =
      ((ingest_data s p fx oa now1).2).status_history
    ∧ ((ingest_data (ingest_data s p fx oa now1).2 p fx oa
        now2).2).sensor_data =
      ((ingest_data s p fx oa now1).2).sensor_data
    ∧ ((ingest_data (ingest_data s p fx oa now1).2 p fx oa
        now2).2).temperature_alerts =
      ((ingest_data s p fx oa now1).2).temperature_alerts := by
  by_cases hreq : (p.fedex_bearer_token.isNone || p.onasset_token.isNone ||
      p.tracking_number.isNone || p.sensor_id.isNone) = true
  · rw [ingest_data_missing_key s p fx oa now1 hreq]
    rw [ingest_data_missing_key s p fx oa now2 hreq]
    exact ⟨rfl, rfl, rfl⟩
  · have hreq' : (p.fedex_bearer_token.isNone || p.onasset_token.isNone ||
        p.tracking_number.isNone || p.sensor_id.isNone) = false :=
      Bool.eq_false_iff.mpr hreq
    rcases hbs : resolveBounds s p with e | b
    · rw [ingest_data_bounds_error s p fx oa now1 e hreq' hbs]
      rw [ingest_data_bounds_error s p fx oa now2 e hreq' hbs]
      exact ⟨rfl, rfl, rfl⟩
    · obtain ⟨bmin, bmax⟩ := b
      cases fx with
      | httpError =>
          rw [(ingest_data_fedex_exits s p oa now1 bmin bmax hreq' hbs).1]
          rw [(ingest_data_fedex_exits s p oa now2 bmin bmax hreq' hbs).1]
          exact ⟨rfl, rfl, rfl⟩
      | networkError =>
          rw [(ingest_data_fedex_exits s p oa now1 bmin bmax hreq' hbs).2.1]
          rw [(ingest_data_fedex_exits s p oa now2 bmin bmax hreq' hbs).2.1]
          exact ⟨rfl, rfl, rfl⟩
      | ok results =>
          cases results with
          | nil =>
              rw [(ingest_data_fedex_exits s p oa now1 bmin bmax hreq'
                hbs).2.2]
              rw [(ingest_data_fedex_exits s p oa now2 bmin bmax hreq'
                hbs).2.2]
              exact ⟨rfl, rfl, rfl⟩
          | cons ti rest =>
              rcases htn : p.tracking_number with _ | tn
              · exfalso
                simp [htn] at hreq'
              · have hts' : ∀ e ∈ ti.scanEvents, (e.dateScan).isSome = true :=
                  hts
                have hscan := processScanEvents_tables
                  (upsertShipment s tn ti.originCity ti.destinationCity
                    ti.statusByLocale).1 now1 ti.scanEvents
                  (upsertShipment s tn ti.originCity ti.destinationCity
                    ti.statusByLocale).2
                have hup := upsertShipment_tables s tn ti.originCity
                  ti.destinationCity ti.statusByLocale
                have hupfind := upsertShipment_find s tn ti.originCity
                  ti.destinationCity ti.statusByLocale
                have hscanself : ∀ e ∈ ti.scanEvents,
                    scanRow (upsertShipment s tn ti.originCity
                      ti.destinationCity ti.statusByLocale).1 now2 e ∈
                    (processScanEvents
                      (upsertShipment s tn ti.originCity ti.destinationCity
                        ti.statusByLocale).1 now1
                      (upsertShipment s tn ti.originCity ti.destinationCity
                        ti.statusByLocale).2
                      ti.scanEvents).status_history := by
                  intro e he
                  rw [scanRow_now_indep _ now1 now2 e (hts' e he)]
                  exact processScanEvents_self_mem _ now1 ti.scanEvents _ e he
                cases oa with
                | httpError =>
                    have h1 : (ingest_data s p
                        (FetchResult.ok (ti :: rest))
                        FetchResult.httpError now1).2 =
                        processScanEvents
                          (upsertShipment s tn ti.originCity
                            ti.destinationCity ti.statusByLocale).1 now1
                          (upsertShipment s tn ti.originCity
                            ti.destinationCity ti.statusByLocale).2
                          ti.scanEvents := by
                      rw [ingest_data_main s p tn FetchResult.httpError ti
                        rest now1 bmin bmax hreq' htn hbs]
                    rw [h1]
                    refine ingest_rerun_tables _ p tn ti rest
                      FetchResult.httpError now2 bmin bmax
                      { id := (upsertShipment s tn ti.originCity
                          ti.destinationCity ti.statusByLocale).1,
                        tracking_number := tn, origin := ti.originCity,
                        destination := ti.destinationCity,
                        current_status := ti.statusByLocale }
                      hreq' htn ?_ ?_ ?_ ?_
                    · exact (resolveBounds_config _ s p
                        (hscan.2.2.2.1.trans hup.2.2.2)).trans hbs
                    · rw [hscan.1]; exact hupfind
                    · exact hscanself
                    · intro r hr; cases hr
                | networkError =>
                    have h1 : (ingest_data s p
                        (FetchResult.ok (ti :: rest))
                        FetchResult.networkError now1).2 =
                        processScanEvents
                          (upsertShipment s tn ti.originCity
                            ti.destinationCity ti.statusByLocale).1 now1
                          (upsertShipment s tn ti.originCity
                            ti.destinationCity ti.statusByLocale).2
                          ti.scanEvents := by
                      rw [ingest_data_main s p tn FetchResult.networkError
                        ti rest now1 bmin bmax hreq' htn hbs]
                    rw [h1]
                    refine ingest_rerun_tables _ p tn ti rest
                      FetchResult.networkError now2 bmin bmax
                      { id := (upsertShipment s tn ti.originCity
                          ti.destinationCity ti.statusByLocale).1,
                        tracking_number := tn, origin := ti.originCity,
                        destination := ti.destinationCity,
                        current_status := ti.statusByLocale }
                      hreq' htn ?_ ?_ ?_ ?_
                    · exact (resolveBounds_config _ s p
                        (hscan.2.2.2.1.trans hup.2.2.2)).trans hbs
                    · rw [hscan.1]; exact hupfind
                    · exact hscanself
                    · intro r hr; cases hr
                | ok reports =>
                    have hrt := processReports_tables
                      (upsertShipment s tn ti.originCity ti.destinationCity
                        ti.statusByLocale).1 bmin bmax reports
                      (processScanEvents
                        (upsertShipment s tn ti.originCity
                          ti.destinationCity ti.statusByLocale).1 now1
                        (upsertShipment s tn ti.originCity
                          ti.destinationCity ti.statusByLocale).2
                        ti.scanEvents)
                    have h1 : (ingest_data s p
                        (FetchResult.ok (ti :: rest))
                        (FetchResult.ok reports) now1).2 =
                        processReports
                          (upsertShipment s tn ti.originCity
                            ti.destinationCity ti.statusByLocale).1
                          bmin bmax
                          (processScanEvents
                            (upsertShipment s tn ti.originCity
                              ti.destinationCity ti.statusByLocale).1 now1
                            (upsertShipment s tn ti.originCity
                              ti.destinationCity ti.statusByLocale).2
                            ti.scanEvents) reports := by
                      rw [ingest_data_main s p tn (FetchResult.ok reports)
                        ti rest now1 bmin bmax hreq' htn hbs]
                    rw [h1]
                    refine ingest_rerun_tables _ p tn ti rest
                      (FetchResult.ok reports) now2 bmin bmax
                      { id := (upsertShipment s tn ti.originCity
                          ti.destinationCity ti.statusByLocale).1,
                        tracking_number := tn, origin := ti.originCity,
                        destination := ti.destinationCity,
                        current_status := ti.statusByLocale }
                      hreq' htn ?_ ?_ ?_ ?_
                    · exact (resolveBounds_config _ s p
                        ((hrt.2.1.trans hscan.2.2.2.1).trans
                          hup.2.2.2)).trans hbs
                    · rw [hrt.1, hscan.1]; exact hupfind
                    · intro e he
                      exact processReports_status_mono _ bmin bmax reports
                        _ _ (hscanself e he)
                    · intro r hr ts temp h2 h3
                      exact processReports_self_mem _ bmin bmax reports _ r
                        hr ts temp h2 h3

/-- C4 witness: re-ingesting a sample payload whose scan event carries a
dateScan and whose report is insertable adds no row on the second
run. -/
theorem C4_witness :
    (∀ e ∈ headScanEvents (FetchResult.ok [exTrackInfoTs]),
      (e.dateScan).isSome = true)
    ∧ (((ingest_data
          (ingest_data DBState.empty exIngestPayload
            (FetchResult.ok [exTrackInfoTs])
            (FetchResult.ok [exReport]) 0).2
          exIngestPayload (FetchResult.ok [exTrackInfoTs])
          (FetchResult.ok [exReport]) 1).2).status_history =
        ((ingest_data DBState.empty exIngestPayload
          (FetchResult.ok [exTrackInfoTs])
          (FetchResult.ok [exReport]) 0).2).status_history
      ∧ ((ingest_data
          (ingest_data DBState.empty exIngestPayload
            (FetchResult.ok [exTrackInfoTs])
            (FetchResult.ok [exReport]) 0).2
          exIngestPayload (FetchResult.ok [exTrackInfoTs])
          (FetchResult.ok [exReport]) 1).2).sensor_data =
        ((ingest_data DBState.empty exIngestPayload
          (FetchResult.ok [exTrackInfoTs])
          (FetchResult.ok [exReport]) 0).2).sensor_data
      ∧ ((ingest_data
          (ingest_data DBState.empty exIngestPayload
            (FetchResult.ok [exTrackInfoTs])
            (FetchResult.ok [exReport]) 0).2
          exIngestPayload (FetchResult.ok [exTrackInfoTs])
          (FetchResult.ok [exReport]) 1).2).temperature_alerts =
        ((ingest_data DBState.empty exIngestPayload
          (FetchResult.ok [exTrackInfoTs])
          (FetchResult.ok [exReport]) 0).2).temperature_alerts) :=
  ⟨by decide,
   C4_reingest_idempotent DBState.empty exIngestPayload
     (FetchResult.ok [exTrackInfoTs]) (FetchResult.ok [exReport]) 0 1
     (by decide)⟩

/-- C7: two sequential POSTs to /shipments/{tn}/status for an existing
shipment with identical status, location and timestamp are BOTH accepted
with 201 and each inserts its own StatusHistory row — the direct append
route performs no dedup of any kind (unlike the ingestion workflow). -/
theorem C7_status_append_no_dedup (s : DBState) (tn : String)
    (d : StatusPayload) (now1 now2 ts : ℚ) (sh : Shipment) (stt : String)
    (hfind : s.shipments.find? (fun x => x.tracking_number == tn) = some sh)
    (hst : d.status = some stt) (hts : d.timestamp = some ts) :
    (add_status s tn (some d) now1).1 = 201
    ∧ ((add_status s tn (some d) now1).2).status_history =
        s.status_history ++
          [{ shipment_id := sh.id, status := stt, location := d.location,
             timestamp := ts }]
    ∧ (add_status ((add_status s tn (some d) now1).2) tn (some d)
        now2).1 = 201
    ∧ ((add_status ((add_status s tn (some d) now1).2) tn (some d)
        now2).2).status_history =
        s.status_history ++
          [{ shipment_id := sh.id, status := stt, location := d.location,
             timestamp := ts },
           { shipment_id := sh.id, status := stt, location := d.location,
             timestamp := ts }] := by
  have hfind2 : (updateFirstShipment s.shipments tn
      (fun x => { x with current_status := some stt })).find?
        (fun x => x.tracking_number == tn) =
      some { sh with current_status := some stt } := by
    rw [find?_updateFirstShipment s.shipments tn
      (fun x => { x with current_status := some stt }) (fun x => rfl), hfind]
    rfl
  refine ⟨?_, ?_, ?_, ?_⟩ <;>
    simp [add_status, hfind, hst, hts, hfind2]

/-- C7 witness: the theorem evaluated on the sample state and status
payload. -/
theorem C7_witness :
    (exStateMin.shipments.find? (fun x => x.tracking_number == "TN") =
      some exShipment)
    ∧ (exStatusPayload.status = some ("Arrived"))
    ∧ (exStatusPayload.timestamp = some 7)
    ∧ ((add_status exStateMin ("TN") (some exStatusPayload) 100).1 = 201
      ∧ ((add_status exStateMin ("TN")
          (some exStatusPayload) 100).2).status_history =
          exStateMin.status_history ++
            [{ shipment_id := exShipment.id, status := "Arrived",
               location := exStatusPayload.location, timestamp := 7 }]
      ∧ (add_status ((add_status exStateMin ("TN")
          (some exStatusPayload) 100).2) ("TN")
          (some exStatusPayload) 200).1 = 201
      ∧ ((add_status ((add_status exStateMin ("TN")
          (some exStatusPayload) 100).2) ("TN")
          (some exStatusPayload) 200).2).status_history =
          exStateMin.status_history ++
            [{ shipment_id := exShipment.id, status := "Arrived",
               location := exStatusPayload.location, timestamp := 7 },
             { shipment_id := exShipment.id, status := "Arrived",
               location := exStatusPayload.location, timestamp := 7 }]) :=
  ⟨by decide, rfl, rfl,
   C7_status_append_no_dedup exStateMin ("TN") exStatusPayload 100 200 7
     exShipment ("Arrived") (by decide) rfl rfl⟩

/-- The alert chain only ever emits the two literal alert types. -/
theorem alertDecisionManual_literals (lo hi : Option ℚ) (t : ℚ) (a : String)
    (h : alertDecisionManual lo hi t = some a) :
    a = "below_min" ∨ a = "above_max" := by
  unfold alertDecisionManual at h
  split_ifs at h <;> simp_all

/-- The invariant depends only on the alert table. -/
theorem alertTypesValid_congr (s1 s2 : DBState)
    (heq : s1.temperature_alerts = s2.temperature_alerts)
    (h : alertTypesValid s2) : alertTypesValid s1 :=
  fun a ha => h a (heq ▸ ha)

/-- `create_temp_alert_if_needed` preserves the alert-type invariant. -/
theorem create_temp_alert_invariant (s : DBState) (sid : Nat) (t now : ℚ)
    (s2 : DBState) (h : alertTypesValid s)
    (hc : create_temp_alert_if_needed s sid t now = Except.ok s2) :
    alertTypesValid s2 := by
  unfold create_temp_alert_if_needed at hc
  rcases hg : get_temp_range s with e | ⟨lo, hi⟩ <;> simp only [hg] at hc
  · cases hc
  · rcases ha : alertDecisionManual lo hi t with _ | a <;>
      simp only [ha, Except.ok.injEq] at hc
    · subst hc; exact h
    · subst hc
      intro x hx
      rcases List.mem_append.mp hx with hx | hx
      · exact h x hx
      · have hx2 : x = { shipment_id := sid, timestamp := now, temperature := t, alert_type := a } := by
          simpa using hx
        subst hx2
        simpa using alertDecisionManual_literals lo hi t a ha

/-- A report step preserves the alert-type invariant. -/
theorem processReport_alert_invariant (sid : Nat) (tmin tmax : Option ℚ)
    (st : DBState) (rec : Report) (h : alertTypesValid st) :
    alertTypesValid (processReport sid tmin tmax st rec) := by
  rcases hts : rec.timestamp with _ | ts <;>
    rcases htemp : rec.temperature with _ | temp <;>
    simp only [processReport, hts, htemp]
  · exact h
  · exact h
  · exact h
  · by_cases hm : reportRow sid rec ∈ st.sensor_data
    · simp only [hm, if_pos]; exact h
    · rcases ha : alertDecisionIngest tmin tmax temp with _ | a <;>
        simp only [hm, ha, if_neg, if_false]
      · exact fun x hx => h x hx
      · intro x hx
        simp only at hx
        rcases List.mem_append.mp hx with hx | hx
        · exact h x hx
        · have hx2 : x = { shipment_id := sid, timestamp := ts, temperature := temp, alert_type := a } := by
            simpa using hx
          subst hx2
          have := alertDecisionManual_literals tmin tmax temp a
            (by rw [← alertDecisionIngest_eq_manual]; exact ha)
          simpa using this

/-- The report loop preserves the alert-type invariant. -/
theorem processReports_alert_invariant (sid : Nat) (tmin tmax : Option ℚ)
    (recs : List Report) :
    ∀ st : DBState, alertTypesValid st →
      alertTypesValid (processReports sid tmin tmax st recs) := by
  induction recs with
  | nil => intro st h; exact h
  | cons a tl ih =>
      intro st h
      rw [processReports_cons]
      exact ih _ (processReport_alert_invariant sid tmin tmax st a h)

/-- The whole ingestion workflow preserves the alert-type invariant. -/
theorem ingest_data_alert_invariant (s : DBState) (p : IngestPayload)
    (fx : FetchResult (List TrackInfo)) (oa : FetchResult (List Report))
    (now : ℚ) (h : alertTypesValid s) :
    alertTypesValid (ingest_data s p fx oa now).2 := by
  by_cases hreq : (p.fedex_bearer_token.isNone || p.onasset_token.isNone ||
      p.tracking_number.isNone || p.sensor_id.isNone) = true
  · rw [ingest_data_missing_key s p fx oa now hreq]; exact h
  · have hreq' : (p.fedex_bearer_token.isNone || p.onasset_token.isNone ||
        p.tracking_number.isNone || p.sensor_id.isNone) = false :=
      Bool.eq_false_iff.mpr hreq
    rcases hbs : resolveBounds s p with e | b
    · rw [ingest_data_bounds_error s p fx oa now e hreq' hbs]; exact h
    · obtain ⟨bmin, bmax⟩ := b
      cases fx with
      | httpError =>
          rw [(ingest_data_fedex_exits s p oa now bmin bmax hreq' hbs).1]
          exact h
      | networkError =>
          rw [(ingest_data_fedex_exits s p oa now bmin bmax hreq' hbs).2.1]
          exact h
      | ok results =>
          cases results with
          | nil =>
              rw [(ingest_data_fedex_exits s p oa now bmin bmax hreq'
                hbs).2.2]
              exact h
          | cons ti rest =>
              rcases htn : p.tracking_number with _ | tn
              · exfalso; simp [htn] at hreq'
              · have hscan := processScanEvents_tables
                  (upsertShipment s tn ti.originCity ti.destinationCity
                    ti.statusByLocale).1 now ti.scanEvents
                  (upsertShipment s tn ti.originCity ti.destinationCity
                    ti.statusByLocale).2
                have hup := upsertShipment_tables s tn ti.originCity
                  ti.destinationCity ti.statusByLocale
                have hvalid2 : alertTypesValid
                    (processScanEvents
                      (upsertShipment s tn ti.originCity ti.destinationCity
                        ti.statusByLocale).1 now
                      (upsertShipment s tn ti.originCity ti.destinationCity
                        ti.statusByLocale).2 ti.scanEvents) :=
                  alertTypesValid_congr _ s
                    (hscan.2.2.1.trans hup.2.2.1) h
                have hm := ingest_data_main s p tn oa ti rest now bmin bmax
                  hreq' htn hbs
                cases oa with
                | httpError =>
                    have h1 : (ingest_data s p (FetchResult.ok (ti :: rest))
                        FetchResult.httpError now).2 =
                        processScanEvents
                          (upsertShipment s tn ti.originCity
                            ti.destinationCity ti.statusByLocale).1 now
                          (upsertShipment s tn ti.originCity
                            ti.destinationCity ti.statusByLocale).2
                          ti.scanEvents := by rw [hm]
                    rw [h1]; exact hvalid2
                | networkError =>
                    have h1 : (ingest_data s p (FetchResult.ok (ti :: rest))
                        FetchResult.networkError now).2 =
                        processScanEvents
                          (upsertShipment s tn ti.originCity
                            ti.destinationCity ti.statusByLocale).1 now
                          (upsertShipment s tn ti.originCity
                            ti.destinationCity ti.statusByLocale).2
                          ti.scanEvents := by rw [hm]
                    rw [h1]; exact hvalid2
                | ok reports =>
                    have h1 : (ingest_data s p (FetchResult.ok (ti :: rest))
                        (FetchResult.ok reports) now).2 =
                        processReports
                          (upsertShipment s tn ti.originCity
                            ti.destinationCity ti.statusByLocale).1
                          bmin bmax
                          (processScanEvents
                            (upsertShipment s tn ti.originCity
                              ti.destinationCity ti.statusByLocale).1 now
                            (upsertShipment s tn ti.originCity
                              ti.destinationCity ti.statusByLocale).2
                            ti.scanEvents) reports := by rw [hm]
                    rw [h1]
                    exact processReports_alert_invariant _ bmin bmax
                      reports _ hvalid2

/-- The manual sensor POST preserves the alert-type invariant. -/
theorem add_sensor_data_alert_invariant (s : DBState) (tn : String)
    (p : Option SensorPayload) (now : ℚ) (h : alertTypesValid s) :
    alertTypesValid (add_sensor_data s tn p now).2 := by
  unfold add_sensor_data
  rcases hf : s.shipments.find? (fun sh => sh.tracking_number == tn)
    with _ | sh <;> simp only [hf]
  · exact h
  · rcases p with _ | d
    · exact h
    · rcases ht : d.temperature with _ | t <;> simp only [ht]
      · exact h
      · rcases hc : create_temp_alert_if_needed
            { s with sensor_data := s.sensor_data ++
              [{ shipment_id := sh.id, timestamp := d.timestamp.getD now, temperature := t, humidity := d.humidity, location := d.location }] }
            sh.id t now with e | s2 <;> simp only [hc]
        · exact fun a ha => h a ha
        · exact create_temp_alert_invariant
            { s with sensor_data := s.sensor_data ++
              [{ shipment_id := sh.id, timestamp := d.timestamp.getD now, temperature := t, humidity := d.humidity, location := d.location }] }
            sh.id t now s2 (fun a ha => h a ha) hc

/-- The shipment-import loop never touches the alert table. -/
theorem addShipmentItem_alerts (st : DBState) (it : ShipmentPayload) :
    (addShipmentItem st it).temperature_alerts = st.temperature_alerts := by
  unfold addShipmentItem
  rcases h : it.tracking_number with _ | tn <;> simp only [h]
  split <;> rfl

/-- The shipment-import fold never touches the alert table. -/
theorem foldl_addShipmentItem_alerts (items : List ShipmentPayload) :
    ∀ st : DBState,
    ((items.foldl addShipmentItem st)).temperature_alerts =
      st.temperature_alerts := by
  induction items with
  | nil => intro st; rfl
  | cons a tl ih =>
      intro st
      rw [List.foldl_cons]
      exact (ih (addShipmentItem st a)).trans (addShipmentItem_alerts st a)

/-- POST /fetch-shipments never touches the alert table. -/
theorem fetch_shipments_alerts (s : DBState) (u : Option String)
    (resp : FetchResult (List ShipmentPayload)) :
    ((fetch_shipments s u resp).2).temperature_alerts =
      s.temperature_alerts := by
  unfold fetch_shipments
  rcases u with _ | url
  · rfl
  · cases resp with
    | httpError => rfl
    | networkError => rfl
    | ok items =>
        by_cases hany : (items.any fun it => it.tracking_number.isNone) = true
        · simp [hany]
        · simp [hany, foldl_addShipmentItem_alerts items s]

/-- POST /shipments never touches the alert table. -/
theorem create_shipment_alerts (s : DBState) (p : Option ShipmentPayload) :
    ((create_shipment s p).2).temperature_alerts = s.temperature_alerts := by
  unfold create_shipment
  rcases p with _ | d
  · rfl
  · rcases h : d.tracking_number with _ | tn <;> simp only [h]
    split <;> rfl

/-- POST /shipments/{tn}/status never touches the alert table. -/
theorem add_status_alerts (s : DBState) (tn : String)
    (p : Option StatusPayload) (now : ℚ) :
    ((add_status s tn p now).2).temperature_alerts =
      s.temperature_alerts := by
  unfold add_status
  rcases hf : s.shipments.find? (fun sh => sh.tracking_number == tn)
    with _ | sh <;> simp only [hf]
  rcases p with _ | d
  · rfl
  · rcases h : d.status with _ | stt <;> simp only [h]

/-- PUT /config/temperature-range never touches the alert table. -/
theorem set_temperature_range_alerts (s : DBState)
    (p : Option ConfigPayload) :
    ((set_temperature_range s p).2).temperature_alerts =
      s.temperature_alerts := by
  unfold set_temperature_range
  rcases p with _ | d
  · rfl
  · rcases h1 : d.min_temperature with _ | vmin <;>
      rcases h2 : d.max_temperature with _ | vmax <;>
      simp only [h1, h2]

/-- C8: the alert-type invariant — every TemperatureAlert row carries
exactly one of the two literals "below_min"/"above_max" — is preserved
by every operation of the system, and every client-facing route other
than the two threshold-evaluation sites (ingestion and the manual
sensor POST) leaves the TemperatureAlert table unchanged: alerts are
created only as a side effect of threshold evaluation. -/
theorem C8_alert_type_invariant (s : DBState) (now : ℚ) (r : Request) :
    (alertTypesValid s → alertTypesValid (step s now r).2)
    ∧ (Request.evaluatesThreshold r = false →
        ((step s now r).2).temperature_alerts = s.temperature_alerts) := by
  cases r with
  | ingest p fx oa =>
      exact ⟨fun h => ingest_data_alert_invariant s p fx oa now h,
        fun hc => by cases hc⟩
  | fetchShipments u resp =>
      exact ⟨fun h => alertTypesValid_congr _ s
          (fetch_shipments_alerts s u resp) h,
        fun _ => fetch_shipments_alerts s u resp⟩
  | createShipment p =>
      exact ⟨fun h => alertTypesValid_congr _ s
          (create_shipment_alerts s p) h,
        fun _ => create_shipment_alerts s p⟩
  | getShipment tn =>
      constructor
      · intro h
        simp only [step, get_shipment]
        split <;> exact h
      · intro hc
        simp only [step, get_shipment]
        split <;> rfl
  | getStatusHistory tn =>
      constructor
      · intro h
        simp only [step, get_status_history]
        split <;> exact h
      · intro hc
        simp only [step, get_status_history]
        split <;> rfl
  | addStatus tn p =>
      exact ⟨fun h => alertTypesValid_congr _ s
          (add_status_alerts s tn p now) h,
        fun _ => add_status_alerts s tn p now⟩
  | getSensorData tn =>
      constructor
      · intro h
        simp only [step, get_sensor_data]
        split <;> exact h
      · intro hc
        simp only [step, get_sensor_data]
        split <;> rfl
  | addSensorData tn p =>
      exact ⟨fun h => add_sensor_data_alert_invariant s tn p now h,
        fun hc => by cases hc⟩
  | getAlerts tn =>
      constructor
      · intro h
        simp only [step, get_temperature_alerts]
        split <;> exact h
      · intro hc
        simp only [step, get_temperature_alerts]
        split <;> rfl
  | getTempRange =>
      exact ⟨fun h => h, fun _ => rfl⟩
  | setTempRange p =>
      exact ⟨fun h => alertTypesValid_congr _ s
          (set_temperature_range_alerts s p) h,
        fun _ => set_temperature_range_alerts s p⟩

/-- C8 witness: the invariant theorem evaluated on the sample state and a
read-only request. -/
theorem C8_witness :
    alertTypesValid exStateMin
    ∧ (Request.evaluatesThreshold (Request.getShipment ("TN")) = false)
    ∧ alertTypesValid (step exStateMin 0 (Request.getShipment ("TN"))).2
    ∧ ((step exStateMin 0
        (Request.getShipment ("TN"))).2).temperature_alerts =
      exStateMin.temperature_alerts :=
  ⟨fun a ha => absurd ha (List.not_mem_nil a), rfl,
   (C8_alert_type_invariant exStateMin 0 (Request.getShipment ("TN"))).1
     (fun a ha => absurd ha (List.not_mem_nil a)),
   (C8_alert_type_invariant exStateMin 0 (Request.getShipment ("TN"))).2
     rfl⟩

/-- C9: in the ingestion workflow, a scan event lacking a status field is
neither skipped nor rejected: its StatusHistory row is built with the
literal status string "Unknown", that row is inserted when no identical
row exists, and the defaulted "Unknown" participates in the full-field
dedup match (an identical existing row suppresses the insert). -/
theorem C9_missing_status_defaults_unknown (st : DBState) (sid : Nat)
    (now : ℚ) (e : ScanEvent) (h : e.status = none) :
    scanRow sid now e = { shipment_id := sid, status := "Unknown", location := e.scanLocationCity, timestamp := e.dateScan.getD now }
    ∧ processScanEvent sid now st e =
        (if ({ shipment_id := sid, status := "Unknown", location := e.scanLocationCity, timestamp := e.dateScan.getD now } : StatusHistory) ∈ st.status_history
         then st
         else { st with status_history := st.status_history ++ [{ shipment_id := sid, status := "Unknown", location := e.scanLocationCity, timestamp := e.dateScan.getD now }] }) := by
  have hrow : scanRow sid now e = { shipment_id := sid, status := "Unknown", location := e.scanLocationCity, timestamp := e.dateScan.getD now } := by
    unfold scanRow
    rw [h]
    rfl
  refine ⟨hrow, ?_⟩
  unfold processScanEvent
  rw [hrow]

/-- C9 witness: the theorem evaluated on the sample state and a scan
event lacking a status. -/
theorem C9_witness :
    (({ status := none, scanLocationCity := none, dateScan := some 5 } :
        ScanEvent).status = none)
    ∧ (scanRow 0 9 { status := none, scanLocationCity := none, dateScan := some 5 } =
        { shipment_id := 0, status := "Unknown", location := none, timestamp := (some (5 : ℚ)).getD 9 }
      ∧ processScanEvent 0 9 exStateMin { status := none, scanLocationCity := none, dateScan := some 5 } =
        (if ({ shipment_id := 0, status := "Unknown", location := none, timestamp := (some (5 : ℚ)).getD 9 } : StatusHistory) ∈ exStateMin.status_history
         then exStateMin
         else { exStateMin with status_history := exStateMin.status_history ++ [{ shipment_id := 0, status := "Unknown", location := none, timestamp := (some (5 : ℚ)).getD 9 }] })) :=
  ⟨rfl,
   C9_missing_status_defaults_unknown exStateMin 0 9
     { status := none, scanLocationCity := none, dateScan := some 5 } rfl⟩

/-- Updating the first matching config row in place commutes with lookup
by the same key. -/
theorem find?_updateFirstConfig (l : List ConfigRow) (k v : String) :
    (updateFirstConfig l k v).find? (fun r => r.key == k) =
      (l.find? (fun r => r.key == k)).map
        (fun r => { r with value := v }) := by
  induction l with
  | nil => rfl
  | cons x xs ih =>
      by_cases h : x.key == k
      · simp [updateFirstConfig, h, List.find?_cons]
      · simp only [updateFirstConfig, h, if_false, Bool.false_eq_true]
        rw [List.find?_cons, List.find?_cons]
        simp only [h]
        exact ih

/-- Lookup under a DIFFERENT key is untouched by an in-place config
update. -/
theorem find?_updateFirstConfig_other (l : List ConfigRow) (k k2 v : String)
    (hkk : k ≠ k2) :
    (updateFirstConfig l k v).find? (fun r => r.key == k2) =
      l.find? (fun r => r.key == k2) := by
  induction l with
  | nil => rfl
  | cons x xs ih =>
      by_cases h : x.key == k
      · have hx : x.key = k := by simpa using h
        have hx2 : (x.key == k2) = false := by
          simp [hx]
          exact hkk
        simp only [updateFirstConfig, h, if_pos]
        rw [List.find?_cons, List.find?_cons]
        simp only [hx2]
      · simp only [updateFirstConfig, h, if_false, Bool.false_eq_true]
        rw [List.find?_cons, List.find?_cons]
        by_cases h2 : x.key == k2 <;> simp only [h2, ih]

/-- After upserting a key, looking it up yields exactly the stored
value. -/
theorem find?_configUpsert_self (l : List ConfigRow) (k v : String) :
    (configUpsert l k v).find? (fun r => r.key == k) =
      some { key := k, value := v } := by
  unfold configUpsert
  rcases hf : l.find? (fun r => r.key == k) with _ | r <;> simp only [hf]
  · rw [List.find?_append, hf]
    simp [List.find?_cons]
  · rw [find?_updateFirstConfig, hf]
    have : r.key = k := by simpa using List.find?_some hf
    simp [this]

/-- Upserting a DIFFERENT key does not disturb a lookup. -/
theorem find?_configUpsert_other (l : List ConfigRow) (k k2 v : String)
    (hkk : k ≠ k2) :
    (configUpsert l k v).find? (fun r => r.key == k2) =
      l.find? (fun r => r.key == k2) := by
  unfold configUpsert
  rcases hf : l.find? (fun r => r.key == k) with _ | r <;> simp only [hf]
  · rw [List.find?_append]
    have : (({ key := k, value := v } : ConfigRow).key == k2) = false := by
      simp
      exact hkk
    simp [List.find?_cons, this]
  · exact find?_updateFirstConfig_other l k k2 v hkk

/-- A manual sensor POST on a database whose configured bounds fail
`float()` answers 500: the ValueError escapes the route after the sensor
row's commit. -/
theorem add_sensor_data_config_error (s : DBState) (tn : String)
    (d : SensorPayload) (now t : ℚ) (sh : Shipment) (e : PyError)
    (hfind : s.shipments.find? (fun x => x.tracking_number == tn) = some sh)
    (ht : d.temperature = some t)
    (herr : get_temp_range s = Except.error e) :
    (add_sensor_data s tn (some d) now).1 = 500 := by
  have herr2 : get_temp_range
      { s with sensor_data := s.sensor_data ++ [{ shipment_id := sh.id, timestamp := d.timestamp.getD now, temperature := t, humidity := d.humidity, location := d.location }] } =
      Except.error e :=
    (get_temp_range_config _ s rfl).trans herr
  simp only [add_sensor_data, hfind, ht, create_temp_alert_if_needed, herr2]

/-- C10: PUT /config/temperature-range accepts arbitrary JSON values for
both keys, answering 200 and storing their string conversion with no
float validation; once a value whose string form does not parse as a
float is stored, GET /config/temperature-range raises and answers the
generic 500, and so does every operation reading the configured bounds —
the manual sensor POST and ingestion without request overrides — rather
than a 400 at the PUT. -/
theorem C10_config_unvalidated_500 (s : DBState) (v w : Json) (tn : String)
    (d : SensorPayload) (t : ℚ) (sh : Shipment) (p : IngestPayload)
    (fx : FetchResult (List TrackInfo)) (oa : FetchResult (List Report))
    (now : ℚ)
    (hv : parseFloat (pyStr v) = none)
    (hfind : s.shipments.find? (fun x => x.tracking_number == tn) = some sh)
    (ht : d.temperature = some t)
    (hreq : (p.fedex_bearer_token.isNone || p.onasset_token.isNone ||
      p.tracking_number.isNone || p.sensor_id.isNone) = false)
    (hmin : p.temp_min = none) :
    (set_temperature_range s (some { min_temperature := some v, max_temperature := some w })).1 = 200
    ∧ ((set_temperature_range s (some { min_temperature := some v, max_temperature := some w })).2).config.find? (fun r => r.key == "min_temperature") = some { key := "min_temperature", value := pyStr v }
    ∧ get_temperature_range ((set_temperature_range s (some { min_temperature := some v, max_temperature := some w })).2) = (500, none)
    ∧ (add_sensor_data ((set_temperature_range s (some { min_temperature := some v, max_temperature := some w })).2) tn (some d) now).1 = 500
    ∧ (ingest_data ((set_temperature_range s (some { min_temperature := some v, max_temperature := some w })).2) p fx oa now).1 = 500 := by
  have hset : set_temperature_range s
      (some { min_temperature := some v, max_temperature := some w }) =
      (200, { s with config := configUpsert (configUpsert s.config ("min_temperature") (pyStr v)) ("max_temperature") (pyStr w) }) := by
    simp only [set_temperature_range]
  have hfmin : ({ s with config := configUpsert (configUpsert s.config ("min_temperature") (pyStr v)) ("max_temperature") (pyStr w) } : DBState).config.find? (fun r => r.key == "min_temperature") = some { key := "min_temperature", value := pyStr v } := by
    show (configUpsert (configUpsert s.config ("min_temperature") (pyStr v)) ("max_temperature") (pyStr w)).find? (fun r => r.key == "min_temperature") = _
    rw [find?_configUpsert_other _ ("max_temperature") ("min_temperature")
      (pyStr w) (by decide)]
    exact find?_configUpsert_self s.config ("min_temperature") (pyStr v)
  have hgtr : get_temp_range { s with config := configUpsert (configUpsert s.config ("min_temperature") (pyStr v)) ("max_temperature") (pyStr w) } = Except.error PyError.valueError := by
    simp only [get_temp_range, hfmin, hv]
  refine ⟨?_, ?_, ?_, ?_, ?_⟩
  · rw [hset]
  · rw [hset]
    exact hfmin
  · rw [hset]
    show get_temperature_range _ = (500, none)
    simp only [get_temperature_range, hgtr]
  · rw [hset]
    exact add_sensor_data_config_error _ tn d now t sh PyError.valueError
      hfind ht hgtr
  · rw [hset]
    have hrb : resolveBounds { s with config := configUpsert (configUpsert s.config ("min_temperature") (pyStr v)) ("max_temperature") (pyStr w) } p = Except.error PyError.valueError := by
      simp only [resolveBounds, hmin, Option.isNone_none, Bool.true_or,
        if_true, hgtr]
    rw [ingest_data_bounds_error _ p fx oa now PyError.valueError hreq hrb]

/-- C10 witness: the theorem evaluated on the sample state with the
stored min value "abc", which does not parse as a float. -/
theorem C10_witness :
    (parseFloat (pyStr (Json.str ("abc"))) = none)
    ∧ (exStateMin.shipments.find? (fun x => x.tracking_number == "TN") =
        some exShipment)
    ∧ (exSensorPayload.temperature = some 1)
    ∧ ((exIngestPayloadNoBounds.fedex_bearer_token.isNone ||
        exIngestPayloadNoBounds.onasset_token.isNone ||
        exIngestPayloadNoBounds.tracking_number.isNone ||
        exIngestPayloadNoBounds.sensor_id.isNone) = false)
    ∧ (exIngestPayloadNoBounds.temp_min = none)
    ∧ ((set_temperature_range exStateMin (some { min_temperature := some (Json.str ("abc")), max_temperature := some (Json.str ("9")) })).1 = 200
      ∧ ((set_temperature_range exStateMin (some { min_temperature := some (Json.str ("abc")), max_temperature := some (Json.str ("9")) })).2).config.find? (fun r => r.key == "min_temperature") = some { key := "min_temperature", value := pyStr (Json.str ("abc")) }
      ∧ get_temperature_range ((set_temperature_range exStateMin (some { min_temperature := some (Json.str ("abc")), max_temperature := some (Json.str ("9")) })).2) = (500, none)
      ∧ (add_sensor_data ((set_temperature_range exStateMin (some { min_temperature := some (Json.str ("abc")), max_temperature := some (Json.str ("9")) })).2) ("TN") (some exSensorPayload) 0).1 = 500
      ∧ (ingest_data ((set_temperature_range exStateMin (some { min_temperature := some (Json.str ("abc")), max_temperature := some (Json.str ("9")) })).2) exIngestPayloadNoBounds (FetchResult.ok []) (FetchResult.ok []) 0).1 = 500) :=
  ⟨by decide, by decide, rfl, rfl, rfl,
   C10_config_unvalidated_500 exStateMin (Json.str ("abc"))
     (Json.str ("9")) ("TN") exSensorPayload 1 exShipment
     exIngestPayloadNoBounds (FetchResult.ok []) (FetchResult.ok []) 0
     (by decide) (by decide) rfl rfl rfl⟩

end ZlgApp
